import Mathlib

/-!
# Verification of the plank tessellation engine

A shallow embedding of the geometric tessellation/cutting engine of the
`plank` repository, together with proofs and refutations of the frozen
specification claims.

Conventions of the embedding:

* JavaScript `number` values are modelled as exact rationals (`ℚ`).
* `Math.cos`/`Math.sin` of a plank rotation cannot be expressed in `ℚ`;
  every function that evaluates them in the source instead receives the
  pair `(c, s)` of the cosine and sine of the rotation as explicit
  parameters.  Theorems that need it carry the hypothesis `c^2 + s^2 = 1`;
  concrete scenarios use rotation `0`, i.e. `(c, s) = (1, 0)`.
* `Math.sqrt` values that are only *compared* against thresholds are
  modelled by comparing squares (each such definition carries a comment
  with the algebraic equivalence).  Where the square root's *value* flows
  into a result (spare side lengths), the functions receive an oracle
  `sq : ℚ → ℚ` standing for `Math.sqrt`; theorems assume of it only what
  real square roots satisfy.
* `Date.now()` (used in generated spare ids) is modelled by an explicit
  clock parameter `now : ℕ`.
* Logging calls are pure observers in the source and are omitted.

The source ships several superseded revisions of the same modules in one
tree.  The embedding follows the revision set that the current
`tessellation.ts` imports resolve to and that the repository's own test
scenarios exercise: the `plank.ts` revision exporting the full API
(`findSuitableSpare`, `calculateOptimalRowOffset`, …, with the corner
check in `isPlankInPolygon`), the first revision of `plankCutting.ts`
(whose linear cut produces the `1095`mm fitted plank the test scenarios
expect), and the row-aware revision of `tessellation.ts`.
-/

set_option maxRecDepth 100000

/-- A planar point, `geometry.ts` `Point`. -/
structure Point where
  x : ℚ
  y : ℚ
deriving DecidableEq, Repr

/-- `MM_TO_PIXELS = 1 / 10`. -/
def MM_TO_PIXELS : ℚ := 1 / 10

/-- `mmToPixels` from `geometry.ts`. -/
def mmToPixels (mm : ℚ) : ℚ := mm * MM_TO_PIXELS

/-- `pixelsToMm` from `geometry.ts`. -/
def pixelsToMm (pixels : ℚ) : ℚ := pixels / MM_TO_PIXELS

/-- The `1e-10` near-parallel tolerance used by the intersection helpers. -/
def EPS : ℚ := 1 / 10000000000

/-- `isInsideEdge` from `geometry.ts`: point weakly on the left side of the
directed line `edgeStart → edgeEnd` (cross product `>= 0`). -/
def isInsideEdge (point edgeStart edgeEnd : Point) : Bool :=
  decide (0 ≤ (edgeEnd.x - edgeStart.x) * (point.y - edgeStart.y) -
      (edgeEnd.y - edgeStart.y) * (point.x - edgeStart.x))

/-- `computeIntersection` from `geometry.ts`: intersection of the *lines*
through `p1p2` and `p3p4` (parameter `t` on `p1p2`, no range check),
`none` when the determinant magnitude is below `1e-10`. -/
def computeIntersection (p1 p2 p3 p4 : Point) : Option Point :=
  let denom := (p1.x - p2.x) * (p3.y - p4.y) - (p1.y - p2.y) * (p3.x - p4.x)
  if |denom| < EPS then none
  else
    let t := ((p1.x - p3.x) * (p3.y - p4.y) - (p1.y - p3.y) * (p3.x - p4.x)) / denom
    some ⟨p1.x + t * (p2.x - p1.x), p1.y + t * (p2.y - p1.y)⟩

/-- Core of `lineIntersection` from `geometry.ts`, additionally exposing the
segment parameter `t` on `p1p2` (the source recomputes the distance from the
returned point by `Math.sqrt`; exposing `t` lets callers express that
distance exactly, see `calculateIntersectionDistance`). -/
def lineIntersectionT (p1 p2 p3 p4 : Point) : Option (ℚ × Point) :=
  let denom := (p1.x - p2.x) * (p3.y - p4.y) - (p1.y - p2.y) * (p3.x - p4.x)
  if |denom| < EPS then none
  else
    let t := ((p1.x - p3.x) * (p3.y - p4.y) - (p1.y - p3.y) * (p3.x - p4.x)) / denom
    let u := -((p1.x - p2.x) * (p1.y - p3.y) - (p1.y - p2.y) * (p1.x - p3.x)) / denom
    if 0 ≤ t ∧ t ≤ 1 ∧ 0 ≤ u ∧ u ≤ 1 then
      some (t, ⟨p1.x + t * (p2.x - p1.x), p1.y + t * (p2.y - p1.y)⟩)
    else none

/-- `lineIntersection` from `geometry.ts`: the intersection point when it
lies within both finite segments. -/
def lineIntersection (p1 p2 p3 p4 : Point) : Option Point :=
  (lineIntersectionT p1 p2 p3 p4).map Prod.snd

/-- `doLinesIntersect` from `geometry.ts`. -/
def doLinesIntersect (point1 point2 point3 point4 : Point) : Bool :=
  (lineIntersection point1 point2 point3 point4).isSome

/-- One iteration of the ray-casting loop shared by `isPointInPolygon` and
`isPointInRectangle` (`geometry.ts`): toggle `inside` when edge `(pi, pj)`
straddles the horizontal ray. -/
def rayCastStep (point pi pj : Point) (inside : Bool) : Bool :=
  if (decide (pi.y > point.y) != decide (pj.y > point.y)) &&
      decide (point.x < (pj.x - pi.x) * (point.y - pi.y) / (pj.y - pi.y) + pi.x)
  then !inside else inside

/-- The ray-casting loop of `geometry.ts` (`for (i = 0, j = n-1; i < n; j = i++)`):
edge pairs `(pts[i], pts[j])` with `j` the predecessor index. -/
def rayCastLoop (point : Point) (pts : List Point) : Bool :=
  (List.range pts.length).foldl
    (fun inside i =>
      rayCastStep point (pts.getD i ⟨0, 0⟩)
        (pts.getD ((i + pts.length - 1) % pts.length) ⟨0, 0⟩) inside)
    false

/-- `isPointInPolygon` from `geometry.ts`: ray casting, `false` for
polygons with fewer than 3 points. -/
def isPointInPolygon (point : Point) (polygonPoints : List Point) : Bool :=
  if polygonPoints.length < 3 then false
  else rayCastLoop point polygonPoints

/-- `isPointInRectangle` from `geometry.ts`: the same ray-casting loop,
without the length guard. -/
def isPointInRectangle (point : Point) (rectangle : List Point) : Bool :=
  rayCastLoop point rectangle

/-- Cross term `x_i*y_{i+1} - x_{i+1}*y_i` of the shoelace loop in
`calculatePolygonArea` (`geometry.ts`), with the source's `(i+1) % n`
wraparound indexing. -/
def crossTermAt (pts : List Point) (i : ℕ) : ℚ :=
  let pi := pts.getD i ⟨0, 0⟩
  let pj := pts.getD ((i + 1) % pts.length) ⟨0, 0⟩
  pi.x * pj.y - pj.x * pi.y

/-- `calculatePolygonArea` from `geometry.ts`: absolute shoelace area,
`0` for fewer than 3 points. -/
def calculatePolygonArea (points : List Point) : ℚ :=
  if points.length < 3 then 0
  else |∑ i ∈ Finset.range points.length, crossTermAt points i| / 2

/-- One clip-edge pass of the Sutherland–Hodgman loop in
`clipPolygonByPolygon` (`geometry.ts`): fold over the input vertices with
accumulator `(s, output)`, `s` starting at the last input vertex. -/
def clipEdgeStep (clipV1 clipV2 : Point) (inputList : List Point) : List Point :=
  match inputList with
  | [] => []
  | _ :: _ =>
    (inputList.foldl
      (fun (acc : Point × List Point) e =>
        let s := acc.1
        let out := acc.2
        if isInsideEdge e clipV1 clipV2 then
          if !isInsideEdge s clipV1 clipV2 then
            match computeIntersection s e clipV1 clipV2 with
            | some inter => (e, out ++ [inter, e])
            | none => (e, out ++ [e])
          else (e, out ++ [e])
        else if isInsideEdge s clipV1 clipV2 then
          match computeIntersection s e clipV1 clipV2 with
          | some inter => (e, out ++ [inter])
          | none => (e, out)
        else (e, out))
      (inputList.getLast?.getD ⟨0, 0⟩, [])).2

/-- `clipPolygonByPolygon` from `geometry.ts`: Sutherland–Hodgman clip of
`subjectPolygon` against every edge of `clipPolygon` in turn.  The source
`break`s once the working list is empty; clipping an empty list is skipped,
which is equivalent. -/
def clipPolygonByPolygon (subjectPolygon clipPolygon : List Point) : List Point :=
  if subjectPolygon.length = 0 || clipPolygon.length = 0 then []
  else
    (List.range clipPolygon.length).foldl
      (fun outputList i =>
        if outputList.length = 0 then outputList
        else
          clipEdgeStep (clipPolygon.getD i ⟨0, 0⟩)
            (clipPolygon.getD ((i + 1) % clipPolygon.length) ⟨0, 0⟩) outputList)
      subjectPolygon

/-- Squared distance from a point to a segment
(`distanceFromPointToLineSegment` in `geometry.ts` returns the square root
of this; callers only compare it with a tolerance, so the square suffices). -/
def distSqFromPointToLineSegment (point lineStart lineEnd : Point) : ℚ :=
  let A := point.x - lineStart.x
  let B := point.y - lineStart.y
  let C := lineEnd.x - lineStart.x
  let D := lineEnd.y - lineStart.y
  let lenSq := C * C + D * D
  if lenSq = 0 then A * A + B * B
  else
    let param := (A * C + B * D) / lenSq
    let xx := if param < 0 then lineStart.x
      else if param > 1 then lineEnd.x else lineStart.x + param * C
    let yy := if param < 0 then lineStart.y
      else if param > 1 then lineEnd.y else lineStart.y + param * D
    (point.x - xx) * (point.x - xx) + (point.y - yy) * (point.y - yy)

/-- `isPointOnPolygonBoundary` from `geometry.ts`:
`distance <= tolerance` on each boundary segment.  For nonnegative
`tolerance` this equals `distanceSquared <= tolerance^2`, which is how it is
decided here. -/
def isPointOnPolygonBoundary (point : Point) (polygonPoints : List Point)
    (tolerance : ℚ := 1) : Bool :=
  (List.range polygonPoints.length).any fun i =>
    decide (distSqFromPointToLineSegment point (polygonPoints.getD i ⟨0, 0⟩)
      (polygonPoints.getD ((i + 1) % polygonPoints.length) ⟨0, 0⟩) ≤ tolerance ^ 2)

/-- `d ≤ tol * Real.sqrt lenSq`, decided rationally: for `tol, lenSq ≥ 0`
this holds iff `d ≤ 0`, or `d > 0` and `d^2 ≤ tol^2 * lenSq`. -/
def leTolTimesNorm (d tol lenSq : ℚ) : Bool :=
  decide (d ≤ 0) || decide (d ^ 2 ≤ tol ^ 2 * lenSq)

/-- Minimum of a list (`Math.min(...list)`); call sites pass nonempty lists. -/
def listMin (l : List ℚ) : ℚ :=
  match l with
  | [] => 0
  | a :: r => r.foldl min a

/-- Maximum of a list (`Math.max(...list)`); call sites pass nonempty lists. -/
def listMax (l : List ℚ) : ℚ :=
  match l with
  | [] => 0
  | a :: r => r.foldl max a

/-- Projections of corners onto an (unnormalized) axis.  The source divides
the axis by its length first; `sepAxisSeparated` compensates by scaling the
tolerance, see there. -/
def projList (axis : Point) (corners : List Point) : List ℚ :=
  corners.map fun c => c.x * axis.x + c.y * axis.y

/-- One separating-axis test of `doRectanglesIntersect` (`geometry.ts`).
The source normalizes `axis` by `len = Math.sqrt(lenSq)` and tests
`maxA <= minB + 0.1 || maxB <= minA + 0.1` on the normalized projections;
multiplying through by `len > 0` this is
`maxA' - minB' ≤ 0.1 * len` on the unnormalized projections, decided
exactly by `leTolTimesNorm`.  A zero-length axis is skipped (`continue`),
i.e. reports "not separated". -/
def sepAxisSeparated (axis : Point) (cornersA cornersB : List Point) : Bool :=
  let lenSq := axis.x * axis.x + axis.y * axis.y
  if lenSq = 0 then false
  else
    let projA := projList axis cornersA
    let projB := projList axis cornersB
    leTolTimesNorm (listMax projA - listMin projB) (1 / 10) lenSq ||
      leTolTimesNorm (listMax projB - listMin projA) (1 / 10) lenSq

/-- `doRectanglesIntersect` from `geometry.ts`: separating axis theorem
over the four edge axes, with the `0.1` touching tolerance. -/
def doRectanglesIntersect (cornersA cornersB : List Point) : Bool :=
  let a0 := cornersA.getD 0 ⟨0, 0⟩
  let a1 := cornersA.getD 1 ⟨0, 0⟩
  let a2 := cornersA.getD 2 ⟨0, 0⟩
  let b0 := cornersB.getD 0 ⟨0, 0⟩
  let b1 := cornersB.getD 1 ⟨0, 0⟩
  let b2 := cornersB.getD 2 ⟨0, 0⟩
  let axes : List Point :=
    [⟨a1.x - a0.x, a1.y - a0.y⟩, ⟨a2.x - a1.x, a2.y - a1.y⟩,
     ⟨b1.x - b0.x, b1.y - b0.y⟩, ⟨b2.x - b1.x, b2.y - b1.y⟩]
  !(axes.any fun a => sepAxisSeparated a cornersA cornersB)

/-- The `Plank` record of `plank.ts`.  Optional TS fields become `Option`
or defaulted fields; `rotation` is kept (in degrees) even though geometric
functions receive its cosine/sine separately. -/
structure Plank where
  id : String
  x : ℚ
  y : ℚ
  rotation : ℚ
  length : ℚ
  width : ℚ
  isSpare : Bool := false
  originalLength : Option ℚ := none
  shape : Option (List Point) := none
  isArbitraryShape : Bool := false
  isMultiLineCut : Bool := false
  cutLines : List (List Point) := []
deriving DecidableEq, Repr

/-- The `PlankDimensions` config from `plankStore.ts`. -/
structure PlankDimensions where
  length : ℚ
  width : ℚ
  gap : ℚ
  minRowOffset : ℚ
deriving DecidableEq, Repr

/-- JS `plank.originalLength || plank.length`: falls back on `length` when
`originalLength` is absent *or zero* (JS falsiness). -/
def origLenOr (plank : Plank) : ℚ :=
  match plank.originalLength with
  | some v => if v = 0 then plank.length else v
  | none => plank.length

/-- `getPlankCorners` from `plank.ts`; `c`/`s` are the cosine/sine of
`plank.rotation * π / 180`. -/
def getPlankCorners (c s : ℚ) (plank : Plank) : List Point :=
  let lengthPx := plank.length * MM_TO_PIXELS
  let widthPx := plank.width * MM_TO_PIXELS
  let halfLength := lengthPx / 2
  let halfWidth := widthPx / 2
  [⟨plank.x + (-halfLength * c - -halfWidth * s), plank.y + (-halfLength * s + -halfWidth * c)⟩,
   ⟨plank.x + (halfLength * c - -halfWidth * s), plank.y + (halfLength * s + -halfWidth * c)⟩,
   ⟨plank.x + (halfLength * c - halfWidth * s), plank.y + (halfLength * s + halfWidth * c)⟩,
   ⟨plank.x + (-halfLength * c - halfWidth * s), plank.y + (-halfLength * s + halfWidth * c)⟩]

/-- `doPlanksIntersect` from `plank.ts` (both planks share one rotation in
every call site, hence a single `(c, s)` pair). -/
def doPlanksIntersect (c s : ℚ) (plankA plankB : Plank) : Bool :=
  doRectanglesIntersect (getPlankCorners c s plankA) (getPlankCorners c s plankB)

/-- `isPointOnPlank` from `plank.ts`. -/
def isPointOnPlank (c s : ℚ) (point : Point) (plank : Plank) : Bool :=
  isPointInRectangle point (getPlankCorners c s plank)

/-- The double loop of `isPlankInPolygon` testing every plank edge against
every polygon edge. -/
def plankEdgeCrossesPolygon (corners polygonPoints : List Point) : Bool :=
  (List.range polygonPoints.length).any fun ppi =>
    let q1 := polygonPoints.getD ppi ⟨0, 0⟩
    let q2 := polygonPoints.getD ((ppi + 1) % polygonPoints.length) ⟨0, 0⟩
    (List.range corners.length).any fun ci =>
      doLinesIntersect q1 q2 (corners.getD ci ⟨0, 0⟩)
        (corners.getD ((ci + 1) % corners.length) ⟨0, 0⟩)

/-- `isPlankInPolygon` from `plank.ts`: requires *some* corner to pass the
point-in-polygon test, then rejects on any plank-edge/polygon-edge
intersection. -/
def isPlankInPolygon (c s : ℚ) (plank : Plank) (polygonPoints : List Point) : Bool :=
  let corners := getPlankCorners c s plank
  if !(corners.any fun corner => isPointInPolygon corner polygonPoints) then false
  else !(plankEdgeCrossesPolygon corners polygonPoints)

/-- `plankOverlapsPolygon` from `plank.ts`. -/
def plankOverlapsPolygon (c s : ℚ) (plank : Plank) (polygonPoints : List Point) : Bool :=
  let plankCorners := getPlankCorners c s plank
  let hasPointInside :=
    (plankCorners.any fun corner => isPointInPolygon corner polygonPoints) ||
      isPointInPolygon ⟨plank.x, plank.y⟩ polygonPoints
  let polygonInPlank := polygonPoints.any fun point => isPointInRectangle point plankCorners
  hasPointInside || polygonInPlank

/-- `plankCollidesWithExisting` from `plank.ts`: each existing plank is
expanded by the gap on both dimensions before the rectangle test. -/
def plankCollidesWithExisting (c s : ℚ) (plank : Plank) (existingPlanks : List Plank)
    (gapPx : ℚ) : Bool :=
  existingPlanks.any fun existing =>
    doPlanksIntersect c s plank
      { existing with
        length := existing.length + pixelsToMm gapPx
        width := existing.width + pixelsToMm gapPx }

/-- `findSuitableSpare` from `plank.ts`: an unimplemented placeholder that
always declines. -/
def findSuitableSpare (_testPlank : Plank) (_polygonPoints : List Point)
    (_availableSpares : List Plank) : Option Plank :=
  none

/-- Truncation toward zero, as JS `%` uses. -/
def qtrunc (q : ℚ) : ℤ := if q < 0 then ⌈q⌉ else ⌊q⌋

/-- JS remainder `a % b` (sign of the dividend).  `b = 0` gives `NaN` in
JS; modelled as `0`, never reached with the positive dimension configs the
engine is run on. -/
def jsMod (a b : ℚ) : ℚ := if b = 0 then 0 else a - b * (qtrunc (a / b) : ℚ)

/-- `calculateOptimalRowOffset` from `plank.ts`.  The JS `Map` of spare
lengths iterates in insertion order; `eraseDups` keeps exactly the first
occurrence of each length in order, and the fold takes the first length
with the strictly largest count, as the source loop does. -/
def calculateOptimalRowOffset (rowIndex : ℤ) (minOffsetPx fullPlankLengthPx : ℚ)
    (availableSpares : List Plank) : ℚ :=
  if |rowIndex| ≤ 1 then jsMod ((rowIndex : ℚ) * minOffsetPx) fullPlankLengthPx
  else
    let optimalOffset := jsMod ((rowIndex : ℚ) * minOffsetPx) fullPlankLengthPx
    if availableSpares.length > 0 then
      let spareLengths := availableSpares.map fun spare => spare.length * MM_TO_PIXELS
      let pairs := spareLengths.eraseDups.map fun l => (l, spareLengths.count l)
      let best := pairs.foldl
        (fun (acc : ℚ × ℕ) lc => if lc.2 > acc.2 then lc else acc) (0, 0)
      if best.1 > 0 ∧ best.2 ≥ 2 then
        if best.1 ≥ minOffsetPx then best.1
        else best.1 * ((⌈minOffsetPx / best.1⌉ : ℤ) : ℚ)
      else optimalOffset
    else optimalOffset

/-- `cutPlank` from `plank.ts`: split a plank at `cutLengthMm`; the spare id
embeds the `Date.now()` reading `now`. -/
def cutPlank (now : ℕ) (plank : Plank) (cutLengthMm : ℚ) : Plank × Plank :=
  ({ plank with id := plank.id ++ "-fitted", length := cutLengthMm },
   { plank with
     id := plank.id ++ "-spare-" ++ toString now
     length := plank.length - cutLengthMm
     isSpare := true
     originalLength := some (origLenOr plank) })

/-- Rotate a world point into the plank's local rotated frame
(the `relativeShape` map used by the cutting strategies). -/
def toLocalFrame (c s : ℚ) (plank : Plank) (point : Point) : Point :=
  ⟨(point.x - plank.x) * c + (point.y - plank.y) * s,
   -(point.x - plank.x) * s + (point.y - plank.y) * c⟩

/-- Classification of `Math.atan2(p.y, p.x)` into the four bands
`(-π,0)`, `{0}` (incl. the origin), `(0,π)`, `{π}`, which are ordered by
angle value. -/
def angClass (p : Point) : ℕ :=
  if p.y < 0 then 0
  else if p.y = 0 ∧ 0 ≤ p.x then 1
  else if p.y > 0 then 2
  else 3

/-- Exact decision of `atan2(p.y,p.x) < atan2(q.y,q.x)`: compare the bands;
within one open half-plane band the angles compare as the cross product
(`angle p < angle q ↔ 0 < p × q` when both angles lie in an open interval
of length `π`); within the one-point bands the angles are equal. -/
def angLtRel (p q : Point) : Bool :=
  let cp := angClass p
  let cq := angClass q
  if cp ≠ cq then cp < cq
  else if cp = 0 ∨ cp = 2 then decide (0 < p.x * q.y - p.y * q.x)
  else false

/-- An entry of the `intersections` array fed to `buildMultiLineCutShape`
(only `point` is consumed there; the surviving `tryMultiLineCut` revision
passes an empty list). -/
structure IntersectionInfo where
  point : Point
  edge : ℕ
  plankEdge : ℕ
  distance : ℚ
deriving DecidableEq, Repr

/-- `buildMultiLineCutShape` from `plankCutting.ts`: corners inside the
polygon plus boundary intersection points, ordered by `atan2` angle around
their centroid (JS `Array.sort` is stable and the comparator subtracts the
angles; `mergeSort` with the exact angle order is the same sort). -/
def buildMultiLineCutShape (c s : ℚ) (plank : Plank) (polygonPoints : List Point)
    (_cutLines : List (List Point)) (intersections : List IntersectionInfo) :
    Option (List Point) :=
  let plankCorners := getPlankCorners c s plank
  let insideCorners := plankCorners.filter fun corner => isPointInPolygon corner polygonPoints
  if insideCorners.length = 0 then none
  else
    let shapePoints := insideCorners ++
      (intersections.filter fun int => isPointOnPolygonBoundary int.point polygonPoints).map
        (fun int => int.point)
    if shapePoints.length < 3 then none
    else
      let center : Point :=
        ⟨(shapePoints.map (fun p => p.x)).sum / (shapePoints.length : ℚ),
         (shapePoints.map (fun p => p.y)).sum / (shapePoints.length : ℚ)⟩
      some (shapePoints.mergeSort fun a b =>
        !(angLtRel ⟨b.x - center.x, b.y - center.y⟩ ⟨a.x - center.x, a.y - center.y⟩))

/-- `createSpareFromRemainingArea` from `plankCutting.ts` (`sq` models
`Math.sqrt`, `now` the `Date.now()` reading in the generated id). -/
def createSpareFromRemainingArea (sq : ℚ → ℚ) (now : ℕ) (originalPlank : Plank)
    (spareAreaPx : ℚ) : Option Plank :=
  if spareAreaPx < 1000 then none
  else
    let spareLength := min (sq spareAreaPx) originalPlank.length
    let spareWidth := min (spareAreaPx / spareLength) originalPlank.width
    if spareLength < 200 ∨ spareWidth < 50 then none
    else some { originalPlank with
      id := originalPlank.id ++ "-spare-" ++ toString now
      length := pixelsToMm spareLength
      width := pixelsToMm spareWidth
      isSpare := true
      originalLength := some (origLenOr originalPlank) }

/-- `createSpareFromCut` from `plankCutting.ts`. -/
def createSpareFromCut (sq : ℚ → ℚ) (now : ℕ) (originalPlank fittedPlank : Plank) :
    Option Plank :=
  if !fittedPlank.isArbitraryShape then none
  else match fittedPlank.shape with
  | none => none
  | some shape =>
    let originalArea := originalPlank.length * originalPlank.width
    let fittedArea := calculatePolygonArea shape * pixelsToMm 1 ^ 2
    let spareArea := originalArea - fittedArea
    if spareArea < 50 * 50 then none
    else
      let spareLength := sq spareArea
      let spareWidth := min originalPlank.width spareLength
      some { originalPlank with
        id := originalPlank.id ++ "-spare-" ++ toString now
        length := spareLength
        width := spareWidth
        isSpare := true
        originalLength := some (origLenOr originalPlank) }

/-- `fitPlankByShapeCutting` from `plankCutting.ts`. -/
def fitPlankByShapeCutting (c s : ℚ) (plank : Plank) (polygonPoints : List Point) :
    Option Plank :=
  let plankCorners := getPlankCorners c s plank
  let clippedShape := clipPolygonByPolygon plankCorners polygonPoints
  if clippedShape.length < 3 then none
  else
    let clippedArea := calculatePolygonArea clippedShape
    let originalArea := plank.length * plank.width * (MM_TO_PIXELS * MM_TO_PIXELS)
    let polygonArea := calculatePolygonArea polygonPoints
    -- JS `plankToPolygonRatio = originalArea / polygonArea` is ±Infinity or NaN
    -- when `polygonArea = 0`; the comparison `> 0.5` then holds iff the
    -- numerator is positive.
    let bigPlank := if polygonArea = 0 then decide (0 < originalArea)
      else decide (originalArea / polygonArea > 1 / 2)
    let minAreaFrac : ℚ := if bigPlank then 5 / 1000 else 2 / 100
    let minAbsoluteArea : ℚ := if bigPlank then 10 else 50
    if clippedArea < originalArea * minAreaFrac ∨ clippedArea < minAbsoluteArea then none
    else if !(clippedShape.all fun point => isPointInPolygon point polygonPoints) then none
    else some { plank with
      id := plank.id ++ "-shaped"
      isArbitraryShape := true
      shape := some (clippedShape.map (toLocalFrame c s plank))
      originalLength := some (origLenOr plank) }

/-- `calculateIntersectionDistance` from `geometry.ts`.  The `geometry.ts`
revision defining it is not in the tree; the body is the implementation
kept identically in the three superseded store revisions, adapted to the
signature that the surviving call sites use (plank center, pixel
dimensions, rotation as `(c, s)`, polygon).  It casts a ray from the back
end of each long plank edge along the length axis and takes the smallest
hit distance, `none` when no hit is nearer than `lengthPx`.  The source
computes a hit's distance as `Math.sqrt((ix-rx)^2 + (iy-ry)^2)`; the hit
point is `rayStart + t * lengthPx * (c, s)` with `t ∈ [0,1]`, so for a unit
direction `(c, s)` the distance is exactly `t * |lengthPx|`, the form used
here. -/
def calculateIntersectionDistance (center : Point) (lengthPx widthPx : ℚ) (c s : ℚ)
    (polygonPoints : List Point) : Option ℚ :=
  let halfWidth := widthPx / 2
  let edges : List Point :=
    [⟨center.x - halfWidth * s, center.y + halfWidth * c⟩,
     ⟨center.x + halfWidth * s, center.y - halfWidth * c⟩]
  let minDist := edges.foldl
    (fun acc edge =>
      let rayStart : Point := ⟨edge.x - lengthPx / 2 * c, edge.y - lengthPx / 2 * s⟩
      let rayEnd : Point := ⟨rayStart.x + lengthPx * c, rayStart.y + lengthPx * s⟩
      (List.range polygonPoints.length).foldl
        (fun acc2 i =>
          match lineIntersectionT rayStart rayEnd (polygonPoints.getD i ⟨0, 0⟩)
              (polygonPoints.getD ((i + 1) % polygonPoints.length) ⟨0, 0⟩) with
          | some ti => min acc2 (ti.1 * |lengthPx|)
          | none => acc2)
        acc)
    lengthPx
  if minDist < lengthPx then some minDist else none

/-- `tryLinearCut` from `plankCutting.ts` (the revision with the
edge-count precondition and the two offset attempts, which is the one the
repository's cutting-strategy test scenarios expect: it produces the
`1095`mm fitted plank).  `now` models the `Date.now()` reading embedded in
the spare id.  JS `!intersectionDistance` is true both for `null` and for a
zero distance. -/
def tryLinearCut (now : ℕ) (c s : ℚ) (plank : Plank) (polygonPoints : List Point) :
    Option (Plank × Plank) :=
  let lengthPx := plank.length * MM_TO_PIXELS
  let widthPx := plank.width * MM_TO_PIXELS
  match calculateIntersectionDistance ⟨plank.x, plank.y⟩ lengthPx widthPx c s polygonPoints with
  | none => none
  | some intersectionDistance =>
    if intersectionDistance = 0 then none
    else if intersectionDistance ≥ lengthPx * (95 / 100) then none
    else
      let bMinX := plank.x - lengthPx / 2
      let bMaxX := plank.x + lengthPx / 2
      let bMinY := plank.y - widthPx / 2
      let bMaxY := plank.y + widthPx / 2
      let tol : ℚ := 1
      let intersectingEdges := ((List.range polygonPoints.length).filter fun i =>
        let p1 := polygonPoints.getD i ⟨0, 0⟩
        let p2 := polygonPoints.getD ((i + 1) % polygonPoints.length) ⟨0, 0⟩
        decide (max (min p1.x p2.x - tol) bMinX ≤ min (max p1.x p2.x + tol) bMaxX) &&
          decide (max (min p1.y p2.y - tol) bMinY ≤ min (max p1.y p2.y + tol) bMaxY)).length
      if intersectingEdges > 1 then none
      else
        let offsetPx := 5 / pixelsToMm 1
        let negativeAdjustedDistance := intersectionDistance - offsetPx
        let negativeCutLengthMm := negativeAdjustedDistance * pixelsToMm 1
        let negativeTestPlank := { plank with
          length := negativeCutLengthMm
          x := plank.x - (plank.length * MM_TO_PIXELS - negativeAdjustedDistance) / 2 * c
          y := plank.y - (plank.length * MM_TO_PIXELS - negativeAdjustedDistance) / 2 * s }
        if negativeCutLengthMm > 0 ∧ isPlankInPolygon c s negativeTestPlank polygonPoints then
          some ({ plank with
                  id := plank.id ++ "-fitted"
                  length := negativeCutLengthMm
                  x := negativeTestPlank.x
                  y := negativeTestPlank.y },
                { plank with
                  id := plank.id ++ "-spare-" ++ toString now
                  length := plank.length - negativeCutLengthMm
                  x := plank.x + (plank.length * MM_TO_PIXELS + negativeAdjustedDistance) / 2 * c
                  y := plank.y + (plank.length * MM_TO_PIXELS + negativeAdjustedDistance) / 2 * s
                  isSpare := true
                  originalLength := some (origLenOr plank) })
        else
          let positiveAdjustedDistance := intersectionDistance + offsetPx
          let positiveCutLengthMm :=
            (plank.length * MM_TO_PIXELS - positiveAdjustedDistance) * pixelsToMm 1
          let positiveTestPlank := { plank with
            length := positiveCutLengthMm
            x := plank.x + (positiveAdjustedDistance * MM_TO_PIXELS + positiveAdjustedDistance) / 2 * c
            y := plank.y + (positiveCutLengthMm * MM_TO_PIXELS + positiveAdjustedDistance) / 2 * s }
          if positiveCutLengthMm > 0 ∧ isPlankInPolygon c s positiveTestPlank polygonPoints then
            some ({ plank with
                    id := plank.id ++ "-fitted"
                    length := positiveCutLengthMm
                    x := positiveTestPlank.x
                    y := positiveTestPlank.y },
                  { plank with
                    id := plank.id ++ "-spare-" ++ toString now
                    length := plank.length - positiveCutLengthMm
                    x := plank.x - (plank.length * MM_TO_PIXELS - positiveAdjustedDistance) / 2 * c
                    y := plank.y - (plank.length * MM_TO_PIXELS - positiveAdjustedDistance) / 2 * s
                    isSpare := true
                    originalLength := some (origLenOr plank) })
          else none

/-- The geometric part of `tryMultiLineCut` (`plankCutting.ts`, the
revision that derives cut lines from polygon edges overlapping the plank
bounding box and passes an empty `intersections` list to
`buildMultiLineCutShape`): everything up to the fitted plank and the
remaining area handed to `createSpareFromRemainingArea`.  The cut-line
length test `Math.sqrt(dx^2+dy^2) > 5` is decided as `dx^2+dy^2 > 25`. -/
def tryMultiLineCutCore (c s : ℚ) (plank : Plank)
    (polygonPoints : List Point) : Option (Plank × ℚ) :=
  let lengthPx := plank.length * MM_TO_PIXELS
  let widthPx := plank.width * MM_TO_PIXELS
  let plankCorners := getPlankCorners c s plank
  let bMinX := listMin (plankCorners.map fun p => p.x)
  let bMaxX := listMax (plankCorners.map fun p => p.x)
  let bMinY := listMin (plankCorners.map fun p => p.y)
  let bMaxY := listMax (plankCorners.map fun p => p.y)
  let intersectingEdges := (List.range polygonPoints.length).filterMap fun i =>
    let p1 := polygonPoints.getD i ⟨0, 0⟩
    let p2 := polygonPoints.getD ((i + 1) % polygonPoints.length) ⟨0, 0⟩
    if decide (max (min p1.x p2.x) bMinX ≤ min (max p1.x p2.x) bMaxX) &&
        decide (max (min p1.y p2.y) bMinY ≤ min (max p1.y p2.y) bMaxY) then
      let cutStart : Point :=
        if |p1.y - p2.y| < 1 then ⟨max (min p1.x p2.x) bMinX, p1.y⟩
        else if |p1.x - p2.x| < 1 then ⟨p1.x, max (min p1.y p2.y) bMinY⟩
        else p1
      let cutEnd : Point :=
        if |p1.y - p2.y| < 1 then ⟨min (max p1.x p2.x) bMaxX, p1.y⟩
        else if |p1.x - p2.x| < 1 then ⟨p1.x, min (max p1.y p2.y) bMaxY⟩
        else p2
      if (cutEnd.x - cutStart.x) ^ 2 + (cutEnd.y - cutStart.y) ^ 2 > 25 then
        some (p1, p2, [cutStart, cutEnd])
      else none
    else none
  if intersectingEdges.length < 2 then none
  else
    let hasHorizontalEdges := intersectingEdges.any fun e => |e.1.y - e.2.1.y| < 1
    let hasVerticalEdges := intersectingEdges.any fun e => |e.1.x - e.2.1.x| < 1
    if !(hasHorizontalEdges && hasVerticalEdges) then none
    else
      let cutLines := intersectingEdges.map fun e => e.2.2
      match buildMultiLineCutShape c s plank polygonPoints cutLines [] with
      | none => none
      | some cutShape =>
        if cutShape.length < 3 then none
        else
          let cutArea := calculatePolygonArea cutShape
          let originalArea := lengthPx * widthPx
          if cutArea < originalArea * (15 / 100) then none
          else
            some ({ plank with
                id := plank.id ++ "-multicut"
                isArbitraryShape := true
                isMultiLineCut := true
                shape := some (cutShape.map (toLocalFrame c s plank))
                cutLines := cutLines
                originalLength := some (origLenOr plank) },
              originalArea - cutArea)

/-- `tryMultiLineCut` from `plankCutting.ts`: the fitted plank from
`tryMultiLineCutCore` together with the rectangular-approximation spare
built by `createSpareFromRemainingArea` from the remaining area. -/
def tryMultiLineCut (sq : ℚ → ℚ) (now : ℕ) (c s : ℚ) (plank : Plank)
    (polygonPoints : List Point) : Option (Plank × Option Plank) :=
  (tryMultiLineCutCore c s plank polygonPoints).map fun r =>
    (r.1, createSpareFromRemainingArea sq now plank r.2)

/-- The result record of `generateTessellation` (`tessellation.ts`). -/
structure TessellationResult where
  planks : List Plank
  spares : List Plank
deriving DecidableEq, Repr

/-- `isOutsideBounds` from `tessellation.ts`: cursor outside the polygon
bounding box expanded by one plank length horizontally and one plank width
vertically. -/
def isOutsideBounds (plankX plankY minX maxX minY maxY lengthPx widthPx : ℚ) : Bool :=
  decide (plankX < minX - lengthPx) || decide (plankX > maxX + lengthPx) ||
    decide (plankY < minY - widthPx) || decide (plankY > maxY + widthPx)

/-- `createTestPlank` from `tessellation.ts`. -/
def createTestPlank (plankId : ℕ) (plankX plankY rotation : ℚ)
    (dimensions : PlankDimensions) (rowIndex : ℤ) (plankInRow : ℕ) : Plank :=
  { id := s!"row{rowIndex}-plank{plankInRow}-{plankId}"
    x := plankX
    y := plankY
    rotation := rotation
    length := dimensions.length
    width := dimensions.width }

/-- `hasCollisionWithExisting` from `tessellation.ts`. -/
def hasCollisionWithExisting (c s : ℚ) (testPlank : Plank) (newPlanks : List Plank) : Bool :=
  newPlanks.any fun existingPlank => doPlanksIntersect c s testPlank existingPlank

/-- `applySparePiece` from `tessellation.ts`: consume a ledger spare and
place it at the candidate position.  The source mutates the two arrays;
modelled by returning the updated lists alongside the success flag. -/
def applySparePiece (testPlank suitableSpare : Plank) (newPlanks newSpares : List Plank) :
    Bool × List Plank × List Plank :=
  match newSpares.indexOf? suitableSpare with
  | some spareIndex =>
    (true,
     newPlanks ++ [{ suitableSpare with
       x := testPlank.x
       y := testPlank.y
       rotation := testPlank.rotation }],
     newSpares.eraseIdx spareIndex)
  | none => (false, newPlanks, newSpares)

/-- The shape-cut stage of `attemptCuttingStrategies` (`tessellation.ts`):
the final fallback of the ordered chain. -/
def shapeStage (sq : ℚ → ℚ) (now : ℕ) (c s : ℚ) (testPlank : Plank)
    (polygonPoints : List Point) (newPlanks newSpares : List Plank) :
    Bool × List Plank × List Plank :=
  match fitPlankByShapeCutting c s testPlank polygonPoints with
  | some shapeCutPlank =>
    if !hasCollisionWithExisting c s testPlank newPlanks then
      (true, newPlanks ++ [shapeCutPlank],
        newSpares ++ (match createSpareFromCut sq now testPlank shapeCutPlank with
          | some sp => [sp]
          | none => []))
    else (false, newPlanks, newSpares)
  | none => (false, newPlanks, newSpares)

/-- The multi-line stage of `attemptCuttingStrategies` (`tessellation.ts`),
falling through to the shape stage when multi-line cutting fails or its
collision check rejects. -/
def multiStage (sq : ℚ → ℚ) (now : ℕ) (c s : ℚ) (testPlank : Plank)
    (polygonPoints : List Point) (newPlanks newSpares : List Plank) :
    Bool × List Plank × List Plank :=
  match tryMultiLineCut sq now c s testPlank polygonPoints with
  | some r =>
    if !hasCollisionWithExisting c s testPlank newPlanks then
      (true, newPlanks ++ [r.1],
        newSpares ++ (match r.2 with | some sp => [sp] | none => []))
    else shapeStage sq now c s testPlank polygonPoints newPlanks newSpares
  | none => shapeStage sq now c s testPlank polygonPoints newPlanks newSpares

/-- `attemptCuttingStrategies` from `tessellation.ts`: the ordered
linear → multi-line → shape fallback chain; a strategy that produced a cut
but fails its collision check falls through to the next one. -/
def attemptCuttingStrategies (sq : ℚ → ℚ) (now : ℕ) (c s : ℚ) (testPlank : Plank)
    (polygonPoints : List Point) (newPlanks newSpares : List Plank) (gapPx : ℚ) :
    Bool × List Plank × List Plank :=
  match tryLinearCut now c s testPlank polygonPoints with
  | some r =>
    if !plankCollidesWithExisting c s r.1 newPlanks gapPx then
      (true, newPlanks ++ [r.1], newSpares ++ [r.2])
    else multiStage sq now c s testPlank polygonPoints newPlanks newSpares
  | none => multiStage sq now c s testPlank polygonPoints newPlanks newSpares

/-- `attemptPlankPlacement` from `tessellation.ts`: ledger spare first,
then the full-plank containment test, then the cutting chain. -/
def attemptPlankPlacement (sq : ℚ → ℚ) (now : ℕ) (c s : ℚ) (testPlank : Plank)
    (polygonPoints : List Point) (newPlanks newSpares : List Plank) (gapPx : ℚ) :
    Bool × List Plank × List Plank :=
  match findSuitableSpare testPlank polygonPoints newSpares with
  | some suitableSpare => applySparePiece testPlank suitableSpare newPlanks newSpares
  | none =>
    if isPlankInPolygon c s testPlank polygonPoints then
      (true, newPlanks ++ [testPlank], newSpares)
    else
      attemptCuttingStrategies sq now c s testPlank polygonPoints newPlanks newSpares gapPx

/-- The `RowState` record of `tessellation.ts`. -/
structure RowState where
  rowIndex : ℤ
  nextX : ℚ
  nextY : ℚ
  placedPlanks : List Plank
  completed : Bool
deriving DecidableEq, Repr

/-- `calculateRowStart` from `tessellation.ts`. -/
def calculateRowStart (c s : ℚ) (startX startY : ℚ) (rowIndex : ℤ)
    (rowSpacingX rowSpacingY offsetForThisRow : ℚ) : ℚ × ℚ :=
  (startX + (rowIndex : ℚ) * rowSpacingX + offsetForThisRow * c,
   startY + (rowIndex : ℚ) * rowSpacingY + offsetForThisRow * s)

/-- `advanceRowPosition` from `tessellation.ts`. -/
def advanceRowPosition (c s : ℚ) (rowState : RowState) (advanceDistance : ℚ) : RowState :=
  { rowState with
    nextX := rowState.nextX + advanceDistance * c
    nextY := rowState.nextY + advanceDistance * s }

/-- One iteration of the `while` body of
`processRowWithContinuousPlacement` (`tessellation.ts`), after the
`attempts` increment: returns the updated row state and accumulators.
Setting `completed := true` models the `break` on the bounds check (nothing
else happens between that `break` and the loop exit). -/
def rowIter (sq : ℚ → ℚ) (now : ℕ) (c s rotation : ℚ) (lengthPx widthPx gapPx : ℚ)
    (dimensions : PlankDimensions) (polygonPoints : List Point)
    (minX maxX minY maxY : ℚ) (st : RowState) (newPlanks newSpares : List Plank)
    (plankId : ℕ) : RowState × List Plank × List Plank × ℕ :=
  if st.rowIndex = 0 ∧ st.placedPlanks.length = 0 then
    (advanceRowPosition c s st (lengthPx + gapPx), newPlanks, newSpares, plankId)
  else if isOutsideBounds st.nextX st.nextY minX maxX minY maxY lengthPx widthPx then
    ({ st with completed := true }, newPlanks, newSpares, plankId)
  else
    let testPlank := createTestPlank plankId st.nextX st.nextY rotation dimensions
      st.rowIndex st.placedPlanks.length
    if !plankOverlapsPolygon c s testPlank polygonPoints then
      (advanceRowPosition c s st (lengthPx + gapPx), newPlanks, newSpares, plankId + 1)
    else if plankCollidesWithExisting c s testPlank newPlanks gapPx then
      (advanceRowPosition c s st (lengthPx + gapPx), newPlanks, newSpares, plankId + 1)
    else
      match attemptPlankPlacement sq now c s testPlank polygonPoints newPlanks newSpares gapPx with
      | (true, planks', spares') =>
        let actualPlank := planks'.getLast?.getD testPlank
        let st' := { st with placedPlanks := st.placedPlanks ++ [actualPlank] }
        (advanceRowPosition c s st' (actualPlank.length * MM_TO_PIXELS + gapPx),
         planks', spares', plankId + 1)
      | (false, planks', spares') =>
        (advanceRowPosition c s st (lengthPx + gapPx), planks', spares', plankId + 1)

/-- Result of one row's placement loop, carrying the loop's local
`attempts` counter alongside the mutated state. -/
structure RowOutcome where
  state : RowState
  planks : List Plank
  spares : List Plank
  plankId : ℕ
  attempts : ℕ
deriving DecidableEq, Repr

/-- The `while (!rowState.completed && attempts < maxAttempts)` loop of
`processRowWithContinuousPlacement`, with `fuel = maxAttempts - attempts`
iterations remaining.  When the fuel runs out (`attempts >= maxAttempts`)
the source marks the row completed after the loop. -/
def processRowLoop (sq : ℚ → ℚ) (now : ℕ) (c s rotation : ℚ)
    (lengthPx widthPx gapPx : ℚ) (dimensions : PlankDimensions)
    (polygonPoints : List Point) (minX maxX minY maxY : ℚ) :
    ℕ → RowState → List Plank → List Plank → ℕ → ℕ → RowOutcome
  | 0, st, planks, spares, plankId, attempts =>
    ⟨{ st with completed := true }, planks, spares, plankId, attempts⟩
  | fuel + 1, st, planks, spares, plankId, attempts =>
    if st.completed then ⟨st, planks, spares, plankId, attempts⟩
    else
      let r := rowIter sq now c s rotation lengthPx widthPx gapPx dimensions polygonPoints
        minX maxX minY maxY st planks spares plankId
      processRowLoop sq now c s rotation lengthPx widthPx gapPx dimensions polygonPoints
        minX maxX minY maxY fuel r.1 r.2.1 r.2.2.1 r.2.2.2 (attempts + 1)

/-- `processRowWithContinuousPlacement` from `tessellation.ts`:
`maxAttempts = 20`. -/
def processRowWithContinuousPlacement (sq : ℚ → ℚ) (now : ℕ) (c s rotation : ℚ)
    (lengthPx widthPx gapPx : ℚ) (dimensions : PlankDimensions)
    (polygonPoints : List Point) (minX maxX minY maxY : ℚ) (st : RowState)
    (newPlanks newSpares : List Plank) (plankId : ℕ) : RowOutcome :=
  processRowLoop sq now c s rotation lengthPx widthPx gapPx dimensions polygonPoints
    minX maxX minY maxY 20 st newPlanks newSpares plankId 0

/-- Inclusive integer range `[a, b]`, the index list of a JS
`for (let i = a; i <= b; i++)` loop. -/
def intRangeIncl (a b : ℤ) : List ℤ :=
  (List.range (b - a + 1).toNat).map fun i => a + (i : ℤ)

/-- `processRowsWithAwarePlacement` from `tessellation.ts`.  The source
keys a `rowStates` map by `rowIndex`, but each row index is visited exactly
once, so every lookup misses and the freshly initialized state (with
`completed = false`) is processed immediately; the map is modelled away. -/
def processRowsWithAwarePlacement (sq : ℚ → ℚ) (now : ℕ) (c s rotation : ℚ)
    (maxRowsNeeded : ℤ) (startX startY minRowOffsetPx lengthPx widthPx gapPx
    rowSpacingX rowSpacingY : ℚ) (dimensions : PlankDimensions)
    (polygonPoints : List Point) (newPlanks newSpares : List Plank) (plankId : ℕ)
    (minX maxX minY maxY : ℚ) : List Plank × List Plank × ℕ :=
  (intRangeIncl (-maxRowsNeeded) maxRowsNeeded).foldl
    (fun (acc : List Plank × List Plank × ℕ) rowIndex =>
      let offsetForThisRow :=
        calculateOptimalRowOffset rowIndex minRowOffsetPx (lengthPx + gapPx) acc.2.1
      let rs := calculateRowStart c s startX startY rowIndex rowSpacingX rowSpacingY
        offsetForThisRow
      let out := processRowWithContinuousPlacement sq now c s rotation lengthPx widthPx
        gapPx dimensions polygonPoints minX maxX minY maxY
        ⟨rowIndex, rs.1, rs.2, [], false⟩ acc.1 acc.2.1 acc.2.2
      (out.planks, out.spares, out.plankId))
    (newPlanks, newSpares, plankId)

/-- `generateTessellation` from `tessellation.ts` (the row-aware revision):
polygons with fewer than 3 points short-circuit to the seed plank alone;
otherwise the row scheduler runs over `2*maxRowsNeeded + 1` rows.  The
unused `plankSpacingX/Y` of `calculateSpacing` are omitted; `rowSpacingX/Y`
are inlined from it.  (With `widthPx = 0` the source's
`Math.ceil(height/widthPx)` is `Infinity` and the JS loop would not
terminate; in `ℚ` division by zero yields `0` — the engine is only run with
positive dimensions.) -/
def generateTessellation (sq : ℚ → ℚ) (now : ℕ) (c s : ℚ) (firstPlank : Plank)
    (polygonPoints : List Point) (dimensions : PlankDimensions) : TessellationResult :=
  if polygonPoints.length < 3 then ⟨[firstPlank], []⟩
  else
    let lengthPx := dimensions.length * MM_TO_PIXELS
    let widthPx := dimensions.width * MM_TO_PIXELS
    let gapPx := dimensions.gap * MM_TO_PIXELS
    let minRowOffsetPx := dimensions.minRowOffset * MM_TO_PIXELS
    let minX := listMin (polygonPoints.map fun p => p.x)
    let maxX := listMax (polygonPoints.map fun p => p.x)
    let minY := listMin (polygonPoints.map fun p => p.y)
    let maxY := listMax (polygonPoints.map fun p => p.y)
    let rowSpacingX := -(widthPx + gapPx) * s
    let rowSpacingY := (widthPx + gapPx) * c
    let maxRowsNeeded : ℤ := ⌈(maxY - minY) / widthPx⌉ + 2
    let r := processRowsWithAwarePlacement sq now c s firstPlank.rotation maxRowsNeeded
      firstPlank.x firstPlank.y minRowOffsetPx lengthPx widthPx gapPx rowSpacingX
      rowSpacingY dimensions polygonPoints [firstPlank] [] 1 minX maxX minY maxY
    ⟨r.1, r.2.1⟩

/-! ## Append-only evolution of the accumulators

The source mutates the `newPlanks`/`newSpares` arrays exclusively through
`push` (and `splice` in the dead spare-reuse branch); these lemmas record
that every stage only ever appends. -/

theorem applySparePiece_ext (testPlank suitableSpare : Plank)
    (newPlanks newSpares : List Plank) :
    ∃ lp, (applySparePiece testPlank suitableSpare newPlanks newSpares).2.1 =
      newPlanks ++ lp := by
  unfold applySparePiece
  repeat' split
  all_goals first
    | exact ⟨_, rfl⟩
    | exact ⟨[], by simp⟩

theorem shapeStage_ext (sq : ℚ → ℚ) (now : ℕ) (c s : ℚ) (testPlank : Plank)
    (polygonPoints : List Point) (newPlanks newSpares : List Plank) :
    ∃ lp ls,
      (shapeStage sq now c s testPlank polygonPoints newPlanks newSpares).2.1 =
        newPlanks ++ lp ∧
      (shapeStage sq now c s testPlank polygonPoints newPlanks newSpares).2.2 =
        newSpares ++ ls := by
  unfold shapeStage
  repeat' split
  all_goals first
    | exact ⟨_, _, rfl, rfl⟩
    | exact ⟨[], [], by simp, by simp⟩

theorem multiStage_ext (sq : ℚ → ℚ) (now : ℕ) (c s : ℚ) (testPlank : Plank)
    (polygonPoints : List Point) (newPlanks newSpares : List Plank) :
    ∃ lp ls,
      (multiStage sq now c s testPlank polygonPoints newPlanks newSpares).2.1 =
        newPlanks ++ lp ∧
      (multiStage sq now c s testPlank polygonPoints newPlanks newSpares).2.2 =
        newSpares ++ ls := by
  unfold multiStage
  repeat' split
  all_goals first
    | exact ⟨_, _, rfl, rfl⟩
    | exact shapeStage_ext sq now c s testPlank polygonPoints newPlanks newSpares

theorem attemptCuttingStrategies_ext (sq : ℚ → ℚ) (now : ℕ) (c s : ℚ)
    (testPlank : Plank) (polygonPoints : List Point) (newPlanks newSpares : List Plank)
    (gapPx : ℚ) :
    ∃ lp ls,
      (attemptCuttingStrategies sq now c s testPlank polygonPoints newPlanks newSpares
        gapPx).2.1 = newPlanks ++ lp ∧
      (attemptCuttingStrategies sq now c s testPlank polygonPoints newPlanks newSpares
        gapPx).2.2 = newSpares ++ ls := by
  unfold attemptCuttingStrategies
  repeat' split
  all_goals first
    | exact ⟨_, _, rfl, rfl⟩
    | exact multiStage_ext sq now c s testPlank polygonPoints newPlanks newSpares

theorem attemptPlankPlacement_ext (sq : ℚ → ℚ) (now : ℕ) (c s : ℚ)
    (testPlank : Plank) (polygonPoints : List Point) (newPlanks newSpares : List Plank)
    (gapPx : ℚ) :
    ∃ lp ls,
      (attemptPlankPlacement sq now c s testPlank polygonPoints newPlanks newSpares
        gapPx).2.1 = newPlanks ++ lp ∧
      (attemptPlankPlacement sq now c s testPlank polygonPoints newPlanks newSpares
        gapPx).2.2 = newSpares ++ ls := by
  unfold attemptPlankPlacement
  simp only [findSuitableSpare]
  split
  · exact ⟨[testPlank], [], rfl, by simp⟩
  · exact attemptCuttingStrategies_ext sq now c s testPlank polygonPoints newPlanks
      newSpares gapPx

theorem rowIter_ext (sq : ℚ → ℚ) (now : ℕ) (c s rotation : ℚ)
    (lengthPx widthPx gapPx : ℚ) (dimensions : PlankDimensions)
    (polygonPoints : List Point) (minX maxX minY maxY : ℚ) (st : RowState)
    (newPlanks newSpares : List Plank) (plankId : ℕ) :
    ∃ lp ls,
      (rowIter sq now c s rotation lengthPx widthPx gapPx dimensions polygonPoints
        minX maxX minY maxY st newPlanks newSpares plankId).2.1 = newPlanks ++ lp ∧
      (rowIter sq now c s rotation lengthPx widthPx gapPx dimensions polygonPoints
        minX maxX minY maxY st newPlanks newSpares plankId).2.2.1 = newSpares ++ ls := by
  unfold rowIter
  dsimp only
  split
  · exact ⟨[], [], by simp, by simp⟩
  split
  · exact ⟨[], [], by simp, by simp⟩
  split
  · exact ⟨[], [], by simp, by simp⟩
  split
  · exact ⟨[], [], by simp, by simp⟩
  split
  · rename_i planks' spares' hplace
    have h := attemptPlankPlacement_ext sq now c s
      (createTestPlank plankId st.nextX st.nextY rotation dimensions st.rowIndex
        st.placedPlanks.length) polygonPoints newPlanks newSpares gapPx
    rw [hplace] at h
    obtain ⟨lp, ls, h1, h2⟩ := h
    exact ⟨lp, ls, by simpa using h1, by simpa using h2⟩
  · rename_i planks' spares' hplace
    have h := attemptPlankPlacement_ext sq now c s
      (createTestPlank plankId st.nextX st.nextY rotation dimensions st.rowIndex
        st.placedPlanks.length) polygonPoints newPlanks newSpares gapPx
    rw [hplace] at h
    obtain ⟨lp, ls, h1, h2⟩ := h
    exact ⟨lp, ls, by simpa using h1, by simpa using h2⟩

theorem processRowLoop_ext (sq : ℚ → ℚ) (now : ℕ) (c s rotation : ℚ)
    (lengthPx widthPx gapPx : ℚ) (dimensions : PlankDimensions)
    (polygonPoints : List Point) (minX maxX minY maxY : ℚ) :
    ∀ (fuel : ℕ) (st : RowState) (planks spares : List Plank) (plankId attempts : ℕ),
    ∃ lp ls,
      (processRowLoop sq now c s rotation lengthPx widthPx gapPx dimensions polygonPoints
        minX maxX minY maxY fuel st planks spares plankId attempts).planks = planks ++ lp ∧
      (processRowLoop sq now c s rotation lengthPx widthPx gapPx dimensions polygonPoints
        minX maxX minY maxY fuel st planks spares plankId attempts).spares = spares ++ ls := by
  intro fuel
  induction fuel with
  | zero =>
    intro st planks spares plankId attempts
    exact ⟨[], [], by simp [processRowLoop], by simp [processRowLoop]⟩
  | succ n ih =>
    intro st planks spares plankId attempts
    unfold processRowLoop
    dsimp only
    split
    · exact ⟨[], [], by simp, by simp⟩
    · obtain ⟨lp1, ls1, h1, h2⟩ := rowIter_ext sq now c s rotation lengthPx widthPx gapPx
        dimensions polygonPoints minX maxX minY maxY st planks spares plankId
      obtain ⟨lp2, ls2, h3, h4⟩ := ih
        (rowIter sq now c s rotation lengthPx widthPx gapPx dimensions polygonPoints
          minX maxX minY maxY st planks spares plankId).1
        (rowIter sq now c s rotation lengthPx widthPx gapPx dimensions polygonPoints
          minX maxX minY maxY st planks spares plankId).2.1
        (rowIter sq now c s rotation lengthPx widthPx gapPx dimensions polygonPoints
          minX maxX minY maxY st planks spares plankId).2.2.1
        (rowIter sq now c s rotation lengthPx widthPx gapPx dimensions polygonPoints
          minX maxX minY maxY st planks spares plankId).2.2.2
        (attempts + 1)
      exact ⟨lp1 ++ lp2, ls1 ++ ls2,
        by rw [h3, h1, List.append_assoc],
        by rw [h4, h2, List.append_assoc]⟩

/-- "The accumulators only grow": the planks and the spares component of the
second state extend those of the first by a (possibly empty) suffix. -/
def accExtends (a b : List Plank × List Plank × ℕ) : Prop :=
  (∃ l, b.1 = a.1 ++ l) ∧ ∃ l, b.2.1 = a.2.1 ++ l

theorem accExtends_refl (a : List Plank × List Plank × ℕ) : accExtends a a :=
  ⟨⟨[], by simp⟩, ⟨[], by simp⟩⟩

theorem accExtends_trans {a b c : List Plank × List Plank × ℕ}
    (h1 : accExtends a b) (h2 : accExtends b c) : accExtends a c := by
  obtain ⟨⟨l1, e1⟩, ⟨l2, e2⟩⟩ := h1
  obtain ⟨⟨l3, e3⟩, ⟨l4, e4⟩⟩ := h2
  exact ⟨⟨l1 ++ l3, by rw [e3, e1, List.append_assoc]⟩,
         ⟨l2 ++ l4, by rw [e4, e2, List.append_assoc]⟩⟩

theorem foldl_accExtends {α : Type} (step : (List Plank × List Plank × ℕ) → α →
    List Plank × List Plank × ℕ) (h : ∀ acc x, accExtends acc (step acc x)) :
    ∀ (rows : List α) (acc : List Plank × List Plank × ℕ),
      accExtends acc (rows.foldl step acc) := by
  intro rows
  induction rows with
  | nil => intro acc; exact accExtends_refl acc
  | cons r rest ih =>
    intro acc
    exact accExtends_trans (h acc r) (ih (step acc r))

theorem processRowsWithAwarePlacement_ext (sq : ℚ → ℚ) (now : ℕ) (c s rotation : ℚ)
    (maxRowsNeeded : ℤ) (startX startY minRowOffsetPx lengthPx widthPx gapPx
    rowSpacingX rowSpacingY : ℚ) (dimensions : PlankDimensions)
    (polygonPoints : List Point) (newPlanks newSpares : List Plank) (plankId : ℕ)
    (minX maxX minY maxY : ℚ) :
    accExtends (newPlanks, newSpares, plankId)
      (processRowsWithAwarePlacement sq now c s rotation maxRowsNeeded startX startY
        minRowOffsetPx lengthPx widthPx gapPx rowSpacingX rowSpacingY dimensions
        polygonPoints newPlanks newSpares plankId minX maxX minY maxY) := by
  unfold processRowsWithAwarePlacement
  apply foldl_accExtends
  intro acc rowIndex
  dsimp only
  obtain ⟨lp, ls, h1, h2⟩ := processRowLoop_ext sq now c s rotation lengthPx widthPx
    gapPx dimensions polygonPoints minX maxX minY maxY 20 _ acc.1 acc.2.1 acc.2.2 0
  exact ⟨⟨lp, h1⟩, ⟨ls, h2⟩⟩

theorem generateTessellation_ext (sq : ℚ → ℚ) (now : ℕ) (c s : ℚ) (firstPlank : Plank)
    (polygonPoints : List Point) (dimensions : PlankDimensions) :
    ∃ lp ls,
      (generateTessellation sq now c s firstPlank polygonPoints dimensions).planks =
        [firstPlank] ++ lp ∧
      (generateTessellation sq now c s firstPlank polygonPoints dimensions).spares =
        [] ++ ls := by
  unfold generateTessellation
  split
  · exact ⟨[], [], by simp, by simp⟩
  · dsimp only
    obtain ⟨⟨lp, h1⟩, ⟨ls, h2⟩⟩ := processRowsWithAwarePlacement_ext sq now c s
      firstPlank.rotation _ firstPlank.x firstPlank.y _ _ _ _ _ _ dimensions
      polygonPoints [firstPlank] [] 1 _ _ _ _
    exact ⟨lp, ls, h1, h2⟩

/-- C9: for every polygon with fewer than 3 points, `generateTessellation`
short-circuits to the seed plank alone with an empty spare list — it places
nothing beyond the seed and raises no exception (the embedding is a total
function whose degenerate branch returns exactly this value). -/
theorem claim_C9_degenerate_short_circuit (sq : ℚ → ℚ) (now : ℕ) (c s : ℚ)
    (firstPlank : Plank) (polygonPoints : List Point) (dimensions : PlankDimensions)
    (h : polygonPoints.length < 3) :
    generateTessellation sq now c s firstPlank polygonPoints dimensions
      = ⟨[firstPlank], []⟩ := by
  unfold generateTessellation
  rw [if_pos h]

/-- Witness for C9 at a concrete two-point polygon. -/
theorem claim_C9_witness :
    ([(⟨0, 0⟩ : Point), ⟨7, 3⟩].length < 3) ∧
    generateTessellation (fun _ => 0) 5 1 0
      { id := "seed", x := 2, y := 2, rotation := 0, length := 1200, width := 200 }
      [⟨0, 0⟩, ⟨7, 3⟩] { length := 1200, width := 200, gap := 0, minRowOffset := 300 }
      = ⟨[{ id := "seed", x := 2, y := 2, rotation := 0, length := 1200, width := 200 }], []⟩ :=
  ⟨by decide, claim_C9_degenerate_short_circuit (fun _ => 0) 5 1 0 _ _ _ (by decide)⟩

/-- C10: for every input — any square-root oracle, clock reading, rotation
pair, seed plank, polygon and dimensions config — the seed plank is
returned unchanged (every field intact) as the first element of the
returned plank list; the accumulators only ever append, so the seed is
never cut, moved or removed, even when it is not inside the polygon. -/
theorem claim_C10_seed_returned_unchanged (sq : ℚ → ℚ) (now : ℕ) (c s : ℚ)
    (firstPlank : Plank) (polygonPoints : List Point) (dimensions : PlankDimensions) :
    (generateTessellation sq now c s firstPlank polygonPoints dimensions).planks.head?
      = some firstPlank := by
  obtain ⟨lp, ls, h1, h2⟩ := generateTessellation_ext sq now c s firstPlank
    polygonPoints dimensions
  rw [h1]
  rfl

/-- C6: the spare-matching function is an unimplemented stub that declines
every candidate (first conjunct); consequently `attemptPlankPlacement`
never takes the spare-substitution path — it is exactly the full-fit test
followed by the cutting chain (second conjunct) — and every placement step
of a run only appends to the spare ledger, which therefore only grows until
the run ends (third conjunct). -/
theorem claim_C6_spare_stub_ledger_grows :
    (∀ (testPlank : Plank) (polygonPoints : List Point) (availableSpares : List Plank),
      findSuitableSpare testPlank polygonPoints availableSpares = none) ∧
    (∀ (sq : ℚ → ℚ) (now : ℕ) (c s : ℚ) (testPlank : Plank)
      (polygonPoints : List Point) (newPlanks newSpares : List Plank) (gapPx : ℚ),
      attemptPlankPlacement sq now c s testPlank polygonPoints newPlanks newSpares gapPx
        = if isPlankInPolygon c s testPlank polygonPoints then
            (true, newPlanks ++ [testPlank], newSpares)
          else
            attemptCuttingStrategies sq now c s testPlank polygonPoints newPlanks
              newSpares gapPx) ∧
    (∀ (sq : ℚ → ℚ) (now : ℕ) (c s rotation lengthPx widthPx gapPx : ℚ)
      (dimensions : PlankDimensions) (polygonPoints : List Point)
      (minX maxX minY maxY : ℚ) (st : RowState) (newPlanks newSpares : List Plank)
      (plankId : ℕ),
      ∃ l, (rowIter sq now c s rotation lengthPx widthPx gapPx dimensions polygonPoints
        minX maxX minY maxY st newPlanks newSpares plankId).2.2.1 = newSpares ++ l) := by
  refine ⟨fun _ _ _ => rfl, fun sq now c s t poly planks spares gap => rfl, ?_⟩
  intro sq now c s rotation lengthPx widthPx gapPx dimensions polygonPoints
    minX maxX minY maxY st newPlanks newSpares plankId
  obtain ⟨lp, ls, h1, h2⟩ := rowIter_ext sq now c s rotation lengthPx widthPx gapPx
    dimensions polygonPoints minX maxX minY maxY st newPlanks newSpares plankId
  exact ⟨ls, h2⟩

/-! ## C2: the full-containment test -/

/-- The tiny square room used to separate `isPlankInPolygon` from the
all-corners characterisation: at coordinates of order `1e-6` every
segment-pair determinant is below the `1e-10` parallel cutoff, so no edge
intersection is ever reported. -/
def c2Poly : List Point :=
  [⟨0, 0⟩, ⟨1 / 1000000, 0⟩, ⟨1 / 1000000, 1 / 1000000⟩, ⟨0, 1 / 1000000⟩]

/-- A plank poking out of the right wall of `c2Poly`: its left corners lie
inside the room, its right corners outside. -/
def c2Plank : Plank :=
  { id := "c2"
    x := 85 / 100000000
    y := 1 / 2000000
    rotation := 0
    length := 13 / 1000000
    width := 4 / 1000000 }

/-- C2 (corrected): `isPlankInPolygon` is *not* the conjunction of
"all four corners pass the point-in-polygon test" with edge-crossing
absence: on `c2Plank`/`c2Poly` it returns `true` while two of the four
corners fail the point-in-polygon test (the sub-`1e-10` determinants
suppress every edge-intersection report). -/
theorem claim_C2_counterexample :
    isPlankInPolygon 1 0 c2Plank c2Poly = true ∧
    ¬ ∀ corner ∈ getPlankCorners 1 0 c2Plank, isPointInPolygon corner c2Poly = true := by
  constructor
  · with_unfolding_all decide
  · with_unfolding_all decide

/-- C2 (amended): `isPlankInPolygon` returns `true` iff *at least one*
corner passes the point-in-polygon test and none of the plank's edges
intersects any polygon edge (per `doLinesIntersect`). -/
theorem claim_C2_amended_some_corner_and_no_crossing (c s : ℚ) (plank : Plank)
    (polygonPoints : List Point) :
    isPlankInPolygon c s plank polygonPoints = true ↔
      ((∃ corner ∈ getPlankCorners c s plank,
          isPointInPolygon corner polygonPoints = true) ∧
       ∀ i < polygonPoints.length, ∀ j < (getPlankCorners c s plank).length,
         doLinesIntersect (polygonPoints.getD i ⟨0, 0⟩)
           (polygonPoints.getD ((i + 1) % polygonPoints.length) ⟨0, 0⟩)
           ((getPlankCorners c s plank).getD j ⟨0, 0⟩)
           ((getPlankCorners c s plank).getD
             ((j + 1) % (getPlankCorners c s plank).length) ⟨0, 0⟩) = false) := by
  unfold isPlankInPolygon plankEdgeCrossesPolygon
  dsimp only
  split
  · rename_i h
    rw [Bool.not_eq_true', List.any_eq_false] at h
    constructor
    · intro hf; exact absurd hf (by simp)
    · rintro ⟨⟨corner, hc, hcp⟩, -⟩
      exact absurd hcp (by simpa using h corner hc)
  · rename_i h
    have hany : ((getPlankCorners c s plank).any fun corner =>
        isPointInPolygon corner polygonPoints) = true := by
      revert h
      cases ((getPlankCorners c s plank).any fun corner =>
        isPointInPolygon corner polygonPoints) <;> simp
    rw [Bool.not_eq_true', List.any_eq_false]
    simp only [List.any_eq_true, List.mem_range, not_exists, not_and,
      Bool.not_eq_true]
    constructor
    · intro hcross
      exact ⟨by simpa using hany, fun i hi j hj => hcross i hi j hj⟩
    · rintro ⟨-, hnc⟩
      exact fun i hi j hj => hnc i hi j hj

/-! ## C4: the linear-cut test scenario -/

/-- The rectangle room of the repository's `LINEAR_CUT_RIGHT_EDGE` test
scenario (and of the specification's scenario). -/
def c4Poly : List Point := [⟨100, 100⟩, ⟨350, 100⟩, ⟨350, 200⟩, ⟨100, 200⟩]

/-- The 1200mm x 240mm plank centered at `(300, 150)` with rotation `0`. -/
def c4Plank : Plank :=
  { id := "test-linear", x := 300, y := 150, rotation := 0, length := 1200, width := 240 }

/-- C4: on the scenario room with the 1200x240 plank centered at
`(300, 150)`, rotation 0, the cutting chain selects the linear-cut
strategy — `attemptCuttingStrategies` returns exactly the linear cut's
fitted plank and spare — with fitted length `1095` (the spec's "about
1095"), a non-null spare of length `105`, and fitted + spare length summing
to the original `1200`. -/
theorem claim_C4_linear_scenario :
    ((tryLinearCut 0 1 0 c4Plank c4Poly).map fun r => r.1.length) = some 1095 ∧
    ((tryLinearCut 0 1 0 c4Plank c4Poly).map fun r => r.2.length) = some 105 ∧
    ((tryLinearCut 0 1 0 c4Plank c4Poly).map fun r => r.1.length + r.2.length)
      = some c4Plank.length ∧
    attemptCuttingStrategies (fun _ => 0) 0 1 0 c4Plank c4Poly [] [] 0
      = (true, ((tryLinearCut 0 1 0 c4Plank c4Poly).map fun r => [r.1]).getD [],
          ((tryLinearCut 0 1 0 c4Plank c4Poly).map fun r => [r.2]).getD []) := by
  refine ⟨?_, ?_, ?_, ?_⟩ <;> with_unfolding_all decide

/-! ## C5: edge-adjacent rectangles and the SAT tolerance -/

/-- The unit square `[0,1] x [0,1]`. -/
def c5RectA : List Point := [⟨0, 0⟩, ⟨1, 0⟩, ⟨1, 1⟩, ⟨0, 1⟩]

/-- The unit square `[1,2] x [0,1]` sharing exactly one edge with
`c5RectA`, shifted toward it by `e`. -/
def c5RectB (e : ℚ) : List Point :=
  [⟨1 - e, 0⟩, ⟨2 - e, 0⟩, ⟨2 - e, 1⟩, ⟨1 - e, 1⟩]

/-- C5 (corrected): edge-sharing unit squares are reported as
non-overlapping with gap 0, as claimed — but shifting one toward the other
by `ε = 1/20 > 0` is still reported as non-overlapping, because the
separating-axis test treats any overlap up to its `0.1` tolerance as
touching.  This refutes "shifting by any ε>0 reports overlap". -/
theorem claim_C5_counterexample :
    doRectanglesIntersect c5RectA (c5RectB 0) = false ∧
    ((0 : ℚ) < 1 / 20 ∧ doRectanglesIntersect c5RectA (c5RectB (1 / 20)) = false) := by
  refine ⟨?_, ?_, ?_⟩ <;> with_unfolding_all decide

theorem lineIntersectionT_bounds {p1 p2 p3 p4 : Point} {t : ℚ} {pt : Point}
    (h : lineIntersectionT p1 p2 p3 p4 = some (t, pt)) : 0 ≤ t ∧ t ≤ 1 := by
  unfold lineIntersectionT at h
  dsimp only at h
  split at h
  · exact absurd h (by simp)
  · split at h
    · rename_i hc
      simp only [Option.some.injEq, Prod.mk.injEq] at h
      obtain ⟨ht, -⟩ := h
      rw [← ht]
      exact ⟨hc.1, hc.2.1⟩
    · exact absurd h (by simp)

theorem foldl_minhits_nonneg (f : ℕ → Option (ℚ × Point)) (g : ℚ)
    (hf : ∀ i t pt, f i = some (t, pt) → 0 ≤ t) (hg : 0 ≤ g) :
    ∀ (idxs : List ℕ) (acc : ℚ), 0 ≤ acc →
      0 ≤ idxs.foldl (fun acc2 i =>
        match f i with
        | some ti => min acc2 (ti.1 * g)
        | none => acc2) acc := by
  intro idxs
  induction idxs with
  | nil => intro acc h; simpa using h
  | cons i rest ih =>
    intro acc hacc
    simp only [List.foldl_cons]
    cases hfi : f i with
    | none => simp only [hfi]; exact ih acc hacc
    | some ti =>
      simp only [hfi]
      exact ih _ (le_min hacc (mul_nonneg (hf i ti.1 ti.2 (by rw [hfi])) hg))

theorem calculateIntersectionDistance_nonneg {center : Point}
    {lengthPx widthPx c s : ℚ} {polygonPoints : List Point} {d : ℚ}
    (hL : 0 ≤ lengthPx)
    (h : calculateIntersectionDistance center lengthPx widthPx c s polygonPoints
      = some d) : 0 ≤ d := by
  have key : ∀ (rayStart rayEnd : Point) (acc : ℚ), 0 ≤ acc →
      0 ≤ (List.range polygonPoints.length).foldl
        (fun acc2 i =>
          match lineIntersectionT rayStart rayEnd (polygonPoints.getD i ⟨0, 0⟩)
              (polygonPoints.getD ((i + 1) % polygonPoints.length) ⟨0, 0⟩) with
          | some ti => min acc2 (ti.1 * |lengthPx|)
          | none => acc2) acc := by
    intro rayStart rayEnd acc hacc
    exact foldl_minhits_nonneg _ _ (fun i t pt hh => (lineIntersectionT_bounds hh).1)
      (abs_nonneg _) _ acc hacc
  unfold calculateIntersectionDistance at h
  dsimp only at h
  split at h
  · simp only [Option.some.injEq] at h
    rw [← h]
    simp only [List.foldl_cons, List.foldl_nil]
    exact key _ _ _ (key _ _ _ hL)
  · exact absurd h (by simp)

/-- C3 (amended): `tryLinearCut` enforces no 5%/95% fitted-length window.
What does hold: whenever it returns a fitted/spare pair for a plank of
positive length, the fitted length is positive, at most the original
length minus the 5mm saw offset, and fitted plus spare length sum exactly
to the original length. -/
theorem claim_C3_amended_no_percentage_window (now : ℕ) (c s : ℚ) (plank : Plank)
    (polygonPoints : List Point) (r : Plank × Plank)
    (hpos : 0 < plank.length)
    (h : tryLinearCut now c s plank polygonPoints = some r) :
    0 < r.1.length ∧ r.1.length ≤ plank.length - 5 ∧
      r.1.length + r.2.length = plank.length := by
  have hLpx : (0 : ℚ) ≤ plank.length * MM_TO_PIXELS :=
    mul_nonneg hpos.le (by norm_num [MM_TO_PIXELS])
  unfold tryLinearCut at h
  dsimp only at h
  split at h
  · exact absurd h (by simp)
  rename_i d hd
  have hd0 : 0 ≤ d := calculateIntersectionDistance_nonneg hLpx hd
  split at h
  · exact absurd h (by simp)
  rename_i hdz
  split at h
  · exact absurd h (by simp)
  rename_i hd95
  split at h
  · exact absurd h (by simp)
  split at h
  · rename_i hneg
    obtain rfl := Option.some.inj h
    obtain ⟨hngt, -⟩ := hneg
    rw [not_le] at hd95
    refine ⟨hngt, ?_, by dsimp only; ring⟩
    dsimp only
    simp only [pixelsToMm, MM_TO_PIXELS] at hd95 hngt ⊢
    norm_num at hd95 hngt ⊢
    linarith
  · split at h
    · rename_i hposb
      obtain rfl := Option.some.inj h
      obtain ⟨hpgt, -⟩ := hposb
      refine ⟨hpgt, ?_, by dsimp only; ring⟩
      dsimp only
      have hdz' : d ≠ 0 := by simpa using hdz
      have hd0' : 0 < d := lt_of_le_of_ne hd0 (Ne.symm hdz')
      simp only [pixelsToMm, MM_TO_PIXELS] at hpgt ⊢
      norm_num at hpgt ⊢
      linarith
    · exact absurd h (by simp)

/-- Witness for the amended C3 at the concrete C4 scenario, where the
linear cut succeeds. -/
theorem claim_C3_amended_witness :
    ∃ r, tryLinearCut 0 1 0 c4Plank c4Poly = some r ∧
      (0 < r.1.length ∧ r.1.length ≤ c4Plank.length - 5 ∧
        r.1.length + r.2.length = c4Plank.length) := by
  have hs : (tryLinearCut 0 1 0 c4Plank c4Poly).isSome = true := by
    with_unfolding_all decide
  obtain ⟨r, hr⟩ := Option.isSome_iff_exists.mp hs
  exact ⟨r, hr, claim_C3_amended_no_percentage_window 0 1 0 c4Plank c4Poly r
    (by norm_num [c4Plank]) hr⟩

/-- C5 (amended): with gap 0 the edge-sharing unit squares are reported
as non-overlapping, and a shift of `ε` toward the other square is reported
as an overlap exactly beyond the separating-axis tolerance: for every
`1/10 < ε < 19/10` the test reports overlap (below `1/10` the overlap is
within the touching tolerance, and at `19/10` the shifted square merely
touches the far side). -/
theorem claim_C5_amended_tolerance_window :
    doRectanglesIntersect c5RectA (c5RectB 0) = false ∧
    ∀ e : ℚ, 1 / 10 < e → e < 19 / 10 →
      doRectanglesIntersect c5RectA (c5RectB e) = true := by
  constructor
  · with_unfolding_all decide
  · intro e h1 h2
    unfold doRectanglesIntersect sepAxisSeparated leTolTimesNorm projList listMin
      listMax c5RectA c5RectB
    dsimp only [List.getD, List.get?, List.map, List.foldl, List.any, Option.getD]
    norm_num
    refine ⟨⟨by linarith, by nlinarith⟩, by linarith, by nlinarith⟩

/-- Witness for the amended C5 at the concrete shift `ε = 1`. -/
theorem claim_C5_amended_witness :
    doRectanglesIntersect c5RectA (c5RectB 0) = false ∧
    doRectanglesIntersect c5RectA (c5RectB 1) = true :=
  ⟨claim_C5_amended_tolerance_window.1,
   claim_C5_amended_tolerance_window.2 1 (by norm_num) (by norm_num)⟩

theorem rowIter_completed_bounds (sq : ℚ → ℚ) (now : ℕ) (c s rotation : ℚ)
    (lengthPx widthPx gapPx : ℚ) (dimensions : PlankDimensions)
    (polygonPoints : List Point) (minX maxX minY maxY : ℚ) (st : RowState)
    (newPlanks newSpares : List Plank) (plankId : ℕ)
    (hc : st.completed = false)
    (h : (rowIter sq now c s rotation lengthPx widthPx gapPx dimensions polygonPoints
      minX maxX minY maxY st newPlanks newSpares plankId).1.completed = true) :
    isOutsideBounds st.nextX st.nextY minX maxX minY maxY lengthPx widthPx = true ∧
    (rowIter sq now c s rotation lengthPx widthPx gapPx dimensions polygonPoints
      minX maxX minY maxY st newPlanks newSpares plankId).1.nextX = st.nextX ∧
    (rowIter sq now c s rotation lengthPx widthPx gapPx dimensions polygonPoints
      minX maxX minY maxY st newPlanks newSpares plankId).1.nextY = st.nextY := by
  unfold rowIter at h ⊢
  dsimp only at h ⊢
  split at h
  · exact absurd h (by simpa [advanceRowPosition] using hc)
  · split at h
    · rename_i h1 h2
      rw [if_neg h1, if_pos h2]
      exact ⟨h2, rfl, rfl⟩
    · split at h
      · exact absurd h (by simpa [advanceRowPosition] using hc)
      · split at h
        · exact absurd h (by simpa [advanceRowPosition] using hc)
        · split at h
          · exact absurd h (by simpa [advanceRowPosition] using hc)
          · exact absurd h (by simpa [advanceRowPosition] using hc)

theorem processRowLoop_completed_frozen (sq : ℚ → ℚ) (now : ℕ) (c s rotation : ℚ)
    (lengthPx widthPx gapPx : ℚ) (dimensions : PlankDimensions)
    (polygonPoints : List Point) (minX maxX minY maxY : ℚ) :
    ∀ (fuel : ℕ) (st : RowState) (planks spares : List Plank) (plankId attempts : ℕ),
    st.completed = true →
    processRowLoop sq now c s rotation lengthPx widthPx gapPx dimensions polygonPoints
      minX maxX minY maxY fuel st planks spares plankId attempts
      = ⟨st, planks, spares, plankId, attempts⟩ := by
  intro fuel
  cases fuel with
  | zero =>
    intro st planks spares plankId attempts hc
    unfold processRowLoop
    have : { st with completed := true } = st := by
      cases st; simp_all
    rw [this]
  | succ n =>
    intro st planks spares plankId attempts hc
    unfold processRowLoop
    dsimp only
    rw [if_pos hc]

theorem processRowLoop_spec (sq : ℚ → ℚ) (now : ℕ) (c s rotation : ℚ)
    (lengthPx widthPx gapPx : ℚ) (dimensions : PlankDimensions)
    (polygonPoints : List Point) (minX maxX minY maxY : ℚ) :
    ∀ (fuel : ℕ) (st : RowState) (planks spares : List Plank) (plankId attempts : ℕ),
    (processRowLoop sq now c s rotation lengthPx widthPx gapPx dimensions polygonPoints
      minX maxX minY maxY fuel st planks spares plankId attempts).attempts
        ≤ attempts + fuel ∧
    (processRowLoop sq now c s rotation lengthPx widthPx gapPx dimensions polygonPoints
      minX maxX minY maxY fuel st planks spares plankId attempts).state.completed
        = true ∧
    (st.completed = false →
      ((processRowLoop sq now c s rotation lengthPx widthPx gapPx dimensions
          polygonPoints minX maxX minY maxY fuel st planks spares plankId
          attempts).attempts = attempts + fuel ∨
        isOutsideBounds
          (processRowLoop sq now c s rotation lengthPx widthPx gapPx dimensions
            polygonPoints minX maxX minY maxY fuel st planks spares plankId
            attempts).state.nextX
          (processRowLoop sq now c s rotation lengthPx widthPx gapPx dimensions
            polygonPoints minX maxX minY maxY fuel st planks spares plankId
            attempts).state.nextY minX maxX minY maxY lengthPx widthPx = true)) := by
  intro fuel
  induction fuel with
  | zero =>
    intro st planks spares plankId attempts
    refine ⟨by simp [processRowLoop], by simp [processRowLoop], fun _ => ?_⟩
    left
    simp [processRowLoop]
  | succ n ih =>
    intro st planks spares plankId attempts
    unfold processRowLoop
    dsimp only
    split
    · rename_i hc
      exact ⟨by dsimp only; omega, by dsimp only; exact hc,
        fun hf => absurd hc (by simp [hf])⟩
    · rename_i hc
      rw [Bool.not_eq_true] at hc
      obtain ⟨ih1, ih2, ih3⟩ := ih
        (rowIter sq now c s rotation lengthPx widthPx gapPx dimensions polygonPoints
          minX maxX minY maxY st planks spares plankId).1
        (rowIter sq now c s rotation lengthPx widthPx gapPx dimensions polygonPoints
          minX maxX minY maxY st planks spares plankId).2.1
        (rowIter sq now c s rotation lengthPx widthPx gapPx dimensions polygonPoints
          minX maxX minY maxY st planks spares plankId).2.2.1
        (rowIter sq now c s rotation lengthPx widthPx gapPx dimensions polygonPoints
          minX maxX minY maxY st planks spares plankId).2.2.2
        (attempts + 1)
      refine ⟨by omega, ih2, fun _ => ?_⟩
      cases hrc : (rowIter sq now c s rotation lengthPx widthPx gapPx dimensions
          polygonPoints minX maxX minY maxY st planks spares plankId).1.completed with
      | false =>
        rcases ih3 hrc with h | h
        · left; omega
        · right; exact h
      | true =>
        right
        obtain ⟨hb, hx, hy⟩ := rowIter_completed_bounds sq now c s rotation lengthPx
          widthPx gapPx dimensions polygonPoints minX maxX minY maxY st planks spares
          plankId hc hrc
        rw [processRowLoop_completed_frozen sq now c s rotation lengthPx widthPx gapPx
          dimensions polygonPoints minX maxX minY maxY n _ _ _ _ _ hrc]
        dsimp only
        rw [hx, hy]
        exact hb

theorem rowIter_placement_dichotomy (sq : ℚ → ℚ) (now : ℕ) (c s rotation : ℚ)
    (lengthPx widthPx gapPx : ℚ) (dimensions : PlankDimensions)
    (polygonPoints : List Point) (minX maxX minY maxY : ℚ) (st : RowState)
    (newPlanks newSpares : List Plank) (plankId : ℕ)
    (hb : isOutsideBounds st.nextX st.nextY minX maxX minY maxY lengthPx widthPx
      = false) :
    (∃ p, (rowIter sq now c s rotation lengthPx widthPx gapPx dimensions polygonPoints
      minX maxX minY maxY st newPlanks newSpares plankId).1.placedPlanks
        = st.placedPlanks ++ [p]) ∨
    ((rowIter sq now c s rotation lengthPx widthPx gapPx dimensions polygonPoints
        minX maxX minY maxY st newPlanks newSpares plankId).1.nextX
          = st.nextX + (lengthPx + gapPx) * c ∧
     (rowIter sq now c s rotation lengthPx widthPx gapPx dimensions polygonPoints
        minX maxX minY maxY st newPlanks newSpares plankId).1.nextY
          = st.nextY + (lengthPx + gapPx) * s) := by
  unfold rowIter
  dsimp only
  split
  · right; exact ⟨rfl, rfl⟩
  split
  · rename_i h2
    exact absurd h2 (by simp [hb])
  split
  · right; exact ⟨rfl, rfl⟩
  split
  · right; exact ⟨rfl, rfl⟩
  split
  · rename_i planks' spares' hmatch
    left
    exact ⟨planks'.getLast?.getD _, rfl⟩
  · right; exact ⟨rfl, rfl⟩

/-- C8: row processing always terminates within the 20-attempt budget:
(1) the row loop uses at most 20 attempts; (2) after the loop, the row is
always marked completed; (3) a row that starts uncompleted completes
exactly by exhausting the 20-attempt budget or because its cursor left the
polygon bounding box expanded by one plank length (horizontally) / one
plank width (vertically); (4) any iteration whose cursor is within those
bounds either places a plank or advances the cursor by exactly the nominal
`lengthPx + gapPx` along the row direction. -/
theorem claim_C8_row_termination :
    (∀ (sq : ℚ → ℚ) (now : ℕ) (c s rotation lengthPx widthPx gapPx : ℚ)
      (dimensions : PlankDimensions) (polygonPoints : List Point)
      (minX maxX minY maxY : ℚ) (st : RowState) (planks spares : List Plank)
      (plankId : ℕ),
      (processRowWithContinuousPlacement sq now c s rotation lengthPx widthPx gapPx
        dimensions polygonPoints minX maxX minY maxY st planks spares
        plankId).attempts ≤ 20) ∧
    (∀ (sq : ℚ → ℚ) (now : ℕ) (c s rotation lengthPx widthPx gapPx : ℚ)
      (dimensions : PlankDimensions) (polygonPoints : List Point)
      (minX maxX minY maxY : ℚ) (st : RowState) (planks spares : List Plank)
      (plankId : ℕ),
      (processRowWithContinuousPlacement sq now c s rotation lengthPx widthPx gapPx
        dimensions polygonPoints minX maxX minY maxY st planks spares
        plankId).state.completed = true) ∧
    (∀ (sq : ℚ → ℚ) (now : ℕ) (c s rotation lengthPx widthPx gapPx : ℚ)
      (dimensions : PlankDimensions) (polygonPoints : List Point)
      (minX maxX minY maxY : ℚ) (st : RowState) (planks spares : List Plank)
      (plankId : ℕ), st.completed = false →
      ((processRowWithContinuousPlacement sq now c s rotation lengthPx widthPx gapPx
          dimensions polygonPoints minX maxX minY maxY st planks spares
          plankId).attempts = 20 ∨
        isOutsideBounds
          (processRowWithContinuousPlacement sq now c s rotation lengthPx widthPx
            gapPx dimensions polygonPoints minX maxX minY maxY st planks spares
            plankId).state.nextX
          (processRowWithContinuousPlacement sq now c s rotation lengthPx widthPx
            gapPx dimensions polygonPoints minX maxX minY maxY st planks spares
            plankId).state.nextY minX maxX minY maxY lengthPx widthPx = true)) ∧
    (∀ (sq : ℚ → ℚ) (now : ℕ) (c s rotation lengthPx widthPx gapPx : ℚ)
      (dimensions : PlankDimensions) (polygonPoints : List Point)
      (minX maxX minY maxY : ℚ) (st : RowState) (newPlanks newSpares : List Plank)
      (plankId : ℕ),
      isOutsideBounds st.nextX st.nextY minX maxX minY maxY lengthPx widthPx
        = false →
      (∃ p, (rowIter sq now c s rotation lengthPx widthPx gapPx dimensions
        polygonPoints minX maxX minY maxY st newPlanks newSpares
        plankId).1.placedPlanks = st.placedPlanks ++ [p]) ∨
      ((rowIter sq now c s rotation lengthPx widthPx gapPx dimensions polygonPoints
          minX maxX minY maxY st newPlanks newSpares plankId).1.nextX
            = st.nextX + (lengthPx + gapPx) * c ∧
       (rowIter sq now c s rotation lengthPx widthPx gapPx dimensions polygonPoints
          minX maxX minY maxY st newPlanks newSpares plankId).1.nextY
            = st.nextY + (lengthPx + gapPx) * s)) := by
  refine ⟨?_, ?_, ?_, ?_⟩
  · intro sq now c s rotation lengthPx widthPx gapPx dimensions polygonPoints
      minX maxX minY maxY st planks spares plankId
    exact (processRowLoop_spec sq now c s rotation lengthPx widthPx gapPx dimensions
      polygonPoints minX maxX minY maxY 20 st planks spares plankId 0).1
  · intro sq now c s rotation lengthPx widthPx gapPx dimensions polygonPoints
      minX maxX minY maxY st planks spares plankId
    exact (processRowLoop_spec sq now c s rotation lengthPx widthPx gapPx dimensions
      polygonPoints minX maxX minY maxY 20 st planks spares plankId 0).2.1
  · intro sq now c s rotation lengthPx widthPx gapPx dimensions polygonPoints
      minX maxX minY maxY st planks spares plankId hc
    exact (processRowLoop_spec sq now c s rotation lengthPx widthPx gapPx dimensions
      polygonPoints minX maxX minY maxY 20 st planks spares plankId 0).2.2 hc
  · intro sq now c s rotation lengthPx widthPx gapPx dimensions polygonPoints
      minX maxX minY maxY st newPlanks newSpares plankId hb
    exact rowIter_placement_dichotomy sq now c s rotation lengthPx widthPx gapPx
      dimensions polygonPoints minX maxX minY maxY st newPlanks newSpares plankId hb

/-- Witness for C8 at a concrete row state whose cursor is inside the
expanded bounds but whose candidate plank does not overlap the polygon:
the placement fails and the cursor advances by the nominal plank length
plus gap. -/
theorem claim_C8_witness :
    ((⟨1, 415, 150, [], false⟩ : RowState).completed = false ∧
      ((processRowWithContinuousPlacement (fun _ => 0) 0 1 0 0 120 24 0
          { length := 1200, width := 240, gap := 0, minRowOffset := 300 } c4Poly
          100 350 100 200 ⟨1, 415, 150, [], false⟩ [] [] 5).attempts = 20 ∨
        isOutsideBounds
          (processRowWithContinuousPlacement (fun _ => 0) 0 1 0 0 120 24 0
            { length := 1200, width := 240, gap := 0, minRowOffset := 300 } c4Poly
            100 350 100 200 ⟨1, 415, 150, [], false⟩ [] [] 5).state.nextX
          (processRowWithContinuousPlacement (fun _ => 0) 0 1 0 0 120 24 0
            { length := 1200, width := 240, gap := 0, minRowOffset := 300 } c4Poly
            100 350 100 200 ⟨1, 415, 150, [], false⟩ [] [] 5).state.nextY
          100 350 100 200 120 24 = true)) ∧
    (isOutsideBounds 415 150 100 350 100 200 120 24 = false ∧
      ((∃ p, (rowIter (fun _ => 0) 0 1 0 0 120 24 0
          { length := 1200, width := 240, gap := 0, minRowOffset := 300 } c4Poly
          100 350 100 200 ⟨1, 415, 150, [], false⟩ [] [] 5).1.placedPlanks
            = (⟨1, 415, 150, [], false⟩ : RowState).placedPlanks ++ [p]) ∨
       ((rowIter (fun _ => 0) 0 1 0 0 120 24 0
            { length := 1200, width := 240, gap := 0, minRowOffset := 300 } c4Poly
            100 350 100 200 ⟨1, 415, 150, [], false⟩ [] [] 5).1.nextX
              = 415 + (120 + 0) * 1 ∧
        (rowIter (fun _ => 0) 0 1 0 0 120 24 0
            { length := 1200, width := 240, gap := 0, minRowOffset := 300 } c4Poly
            100 350 100 200 ⟨1, 415, 150, [], false⟩ [] [] 5).1.nextY
              = 150 + (120 + 0) * 0))) := by
  refine ⟨⟨rfl, ?_⟩, ⟨by with_unfolding_all decide, ?_⟩⟩
  · exact claim_C8_row_termination.2.2.1 (fun _ => 0) 0 1 0 0 120 24 0
      { length := 1200, width := 240, gap := 0, minRowOffset := 300 } c4Poly
      100 350 100 200 ⟨1, 415, 150, [], false⟩ [] [] 5 rfl
  · exact claim_C8_row_termination.2.2.2 (fun _ => 0) 0 1 0 0 120 24 0
      { length := 1200, width := 240, gap := 0, minRowOffset := 300 } c4Poly
      100 350 100 200 ⟨1, 415, 150, [], false⟩ [] [] 5
      (by with_unfolding_all decide)

/-! ## C7: determinism and the clock-dependent spare ids -/

/-- A `Plank` with its generated `id` string erased: the clock reading
`Date.now()` flows only into id strings, so two runs at different clock
readings agree after applying `stripId`. -/
structure PlankData where
  x : ℚ
  y : ℚ
  rotation : ℚ
  length : ℚ
  width : ℚ
  isSpare : Bool
  originalLength : Option ℚ
  shape : Option (List Point)
  isArbitraryShape : Bool
  isMultiLineCut : Bool
  cutLines : List (List Point)
deriving DecidableEq, Repr

/-- Erase the id of a plank record. -/
def stripId (p : Plank) : PlankData :=
  ⟨p.x, p.y, p.rotation, p.length, p.width, p.isSpare, p.originalLength, p.shape,
   p.isArbitraryShape, p.isMultiLineCut, p.cutLines⟩

theorem createSpareFromRemainingArea_strip (sq : ℚ → ℚ) (now₁ now₂ : ℕ)
    (originalPlank : Plank) (spareAreaPx : ℚ) :
    (createSpareFromRemainingArea sq now₁ originalPlank spareAreaPx).map stripId =
    (createSpareFromRemainingArea sq now₂ originalPlank spareAreaPx).map stripId := by
  unfold createSpareFromRemainingArea
  dsimp only
  split
  · rfl
  · split
    · rfl
    · rfl

theorem createSpareFromCut_strip (sq : ℚ → ℚ) (now₁ now₂ : ℕ)
    (originalPlank fittedPlank : Plank) :
    (createSpareFromCut sq now₁ originalPlank fittedPlank).map stripId =
    (createSpareFromCut sq now₂ originalPlank fittedPlank).map stripId := by
  unfold createSpareFromCut
  dsimp only
  split
  · rfl
  · split
    · rfl
    · split
      · rfl
      · rfl

theorem tryLinearCut_strip (now₁ now₂ : ℕ) (c s : ℚ) (plank : Plank)
    (polygonPoints : List Point) :
    (tryLinearCut now₁ c s plank polygonPoints).map (fun r => (r.1, stripId r.2)) =
    (tryLinearCut now₂ c s plank polygonPoints).map (fun r => (r.1, stripId r.2)) := by
  unfold tryLinearCut
  dsimp only
  split
  · rfl
  · split
    · rfl
    · split
      · rfl
      · split
        · rfl
        · split
          · rfl
          · split
            · rfl
            · rfl

theorem tryMultiLineCut_strip (sq : ℚ → ℚ) (now₁ now₂ : ℕ) (c s : ℚ) (plank : Plank)
    (polygonPoints : List Point) :
    (tryMultiLineCut sq now₁ c s plank polygonPoints).map
      (fun r => (r.1, r.2.map stripId)) =
    (tryMultiLineCut sq now₂ c s plank polygonPoints).map
      (fun r => (r.1, r.2.map stripId)) := by
  unfold tryMultiLineCut
  cases h : tryMultiLineCutCore c s plank polygonPoints with
  | none => rfl
  | some r =>
    show some (r.1, (createSpareFromRemainingArea sq now₁ plank r.2).map stripId)
      = some (r.1, (createSpareFromRemainingArea sq now₂ plank r.2).map stripId)
    rw [createSpareFromRemainingArea_strip sq now₁ now₂ plank r.2]

theorem shapeStage_strip (sq : ℚ → ℚ) (now₁ now₂ : ℕ) (c s : ℚ) (testPlank : Plank)
    (polygonPoints : List Point) (planks spares₁ spares₂ : List Plank)
    (hs : spares₁.map stripId = spares₂.map stripId) :
    (shapeStage sq now₁ c s testPlank polygonPoints planks spares₁).1 =
      (shapeStage sq now₂ c s testPlank polygonPoints planks spares₂).1 ∧
    (shapeStage sq now₁ c s testPlank polygonPoints planks spares₁).2.1 =
      (shapeStage sq now₂ c s testPlank polygonPoints planks spares₂).2.1 ∧
    (shapeStage sq now₁ c s testPlank polygonPoints planks spares₁).2.2.map stripId =
      (shapeStage sq now₂ c s testPlank polygonPoints planks spares₂).2.2.map stripId := by
  unfold shapeStage
  cases hfit : fitPlankByShapeCutting c s testPlank polygonPoints with
  | none => exact ⟨rfl, rfl, hs⟩
  | some shapeCutPlank =>
    dsimp only
    split
    · have hc := createSpareFromCut_strip sq now₁ now₂ testPlank shapeCutPlank
      cases h₁ : createSpareFromCut sq now₁ testPlank shapeCutPlank with
      | none =>
        cases h₂ : createSpareFromCut sq now₂ testPlank shapeCutPlank with
        | none => simpa using hs
        | some sp₂ => rw [h₁, h₂] at hc; simp at hc
      | some sp₁ =>
        cases h₂ : createSpareFromCut sq now₂ testPlank shapeCutPlank with
        | none => rw [h₁, h₂] at hc; simp at hc
        | some sp₂ =>
          rw [h₁, h₂] at hc
          simp only [Option.map_some', Option.some.injEq] at hc
          refine ⟨rfl, rfl, ?_⟩
          simp [hs, hc]
    · exact ⟨rfl, rfl, hs⟩

theorem multiStage_strip (sq : ℚ → ℚ) (now₁ now₂ : ℕ) (c s : ℚ) (testPlank : Plank)
    (polygonPoints : List Point) (planks spares₁ spares₂ : List Plank)
    (hs : spares₁.map stripId = spares₂.map stripId) :
    (multiStage sq now₁ c s testPlank polygonPoints planks spares₁).1 =
      (multiStage sq now₂ c s testPlank polygonPoints planks spares₂).1 ∧
    (multiStage sq now₁ c s testPlank polygonPoints planks spares₁).2.1 =
      (multiStage sq now₂ c s testPlank polygonPoints planks spares₂).2.1 ∧
    (multiStage sq now₁ c s testPlank polygonPoints planks spares₁).2.2.map stripId =
      (multiStage sq now₂ c s testPlank polygonPoints planks spares₂).2.2.map stripId := by
  unfold multiStage
  have hm := tryMultiLineCut_strip sq now₁ now₂ c s testPlank polygonPoints
  cases h₁ : tryMultiLineCut sq now₁ c s testPlank polygonPoints with
  | none =>
    cases h₂ : tryMultiLineCut sq now₂ c s testPlank polygonPoints with
    | none => exact shapeStage_strip sq now₁ now₂ c s testPlank polygonPoints planks spares₁ spares₂ hs
    | some r₂ => rw [h₁, h₂] at hm; simp at hm
  | some r₁ =>
    cases h₂ : tryMultiLineCut sq now₂ c s testPlank polygonPoints with
    | none => rw [h₁, h₂] at hm; simp at hm
    | some r₂ =>
      rw [h₁, h₂] at hm
      simp only [Option.map_some', Option.some.injEq, Prod.mk.injEq] at hm
      obtain ⟨hf, hsp⟩ := hm
      dsimp only
      split
      · refine ⟨rfl, by rw [hf], ?_⟩
        cases hsp₁ : r₁.2 with
        | none =>
          cases hsp₂ : r₂.2 with
          | none => simpa using hs
          | some q₂ => rw [hsp₁, hsp₂] at hsp; simp at hsp
        | some q₁ =>
          cases hsp₂ : r₂.2 with
          | none => rw [hsp₁, hsp₂] at hsp; simp at hsp
          | some q₂ =>
            rw [hsp₁, hsp₂] at hsp
            simp only [Option.map_some', Option.some.injEq] at hsp
            simp [hs, hsp]
      · exact shapeStage_strip sq now₁ now₂ c s testPlank polygonPoints planks spares₁ spares₂ hs

theorem attemptCuttingStrategies_strip (sq : ℚ → ℚ) (now₁ now₂ : ℕ) (c s : ℚ)
    (testPlank : Plank) (polygonPoints : List Point) (planks spares₁ spares₂ : List Plank)
    (gapPx : ℚ) (hs : spares₁.map stripId = spares₂.map stripId) :
    (attemptCuttingStrategies sq now₁ c s testPlank polygonPoints planks spares₁ gapPx).1 =
      (attemptCuttingStrategies sq now₂ c s testPlank polygonPoints planks spares₂ gapPx).1 ∧
    (attemptCuttingStrategies sq now₁ c s testPlank polygonPoints planks spares₁ gapPx).2.1 =
      (attemptCuttingStrategies sq now₂ c s testPlank polygonPoints planks spares₂ gapPx).2.1 ∧
    (attemptCuttingStrategies sq now₁ c s testPlank polygonPoints planks spares₁
        gapPx).2.2.map stripId =
      (attemptCuttingStrategies sq now₂ c s testPlank polygonPoints planks spares₂
        gapPx).2.2.map stripId := by
  unfold attemptCuttingStrategies
  have hl := tryLinearCut_strip now₁ now₂ c s testPlank polygonPoints
  cases h₁ : tryLinearCut now₁ c s testPlank polygonPoints with
  | none =>
    cases h₂ : tryLinearCut now₂ c s testPlank polygonPoints with
    | none => exact multiStage_strip sq now₁ now₂ c s testPlank polygonPoints planks spares₁ spares₂ hs
    | some r₂ => rw [h₁, h₂] at hl; simp at hl
  | some r₁ =>
    cases h₂ : tryLinearCut now₂ c s testPlank polygonPoints with
    | none => rw [h₁, h₂] at hl; simp at hl
    | some r₂ =>
      rw [h₁, h₂] at hl
      simp only [Option.map_some', Option.some.injEq, Prod.mk.injEq] at hl
      obtain ⟨hf, hsp⟩ := hl
      dsimp only
      rw [hf]
      split
      · exact ⟨rfl, rfl, by simp [hs, hsp]⟩
      · exact multiStage_strip sq now₁ now₂ c s testPlank polygonPoints planks spares₁ spares₂ hs

theorem attemptPlankPlacement_strip (sq : ℚ → ℚ) (now₁ now₂ : ℕ) (c s : ℚ)
    (testPlank : Plank) (polygonPoints : List Point) (planks spares₁ spares₂ : List Plank)
    (gapPx : ℚ) (hs : spares₁.map stripId = spares₂.map stripId) :
    (attemptPlankPlacement sq now₁ c s testPlank polygonPoints planks spares₁ gapPx).1 =
      (attemptPlankPlacement sq now₂ c s testPlank polygonPoints planks spares₂ gapPx).1 ∧
    (attemptPlankPlacement sq now₁ c s testPlank polygonPoints planks spares₁ gapPx).2.1 =
      (attemptPlankPlacement sq now₂ c s testPlank polygonPoints planks spares₂ gapPx).2.1 ∧
    (attemptPlankPlacement sq now₁ c s testPlank polygonPoints planks spares₁
        gapPx).2.2.map stripId =
      (attemptPlankPlacement sq now₂ c s testPlank polygonPoints planks spares₂
        gapPx).2.2.map stripId := by
  unfold attemptPlankPlacement findSuitableSpare
  dsimp only
  split
  · exact ⟨rfl, rfl, hs⟩
  · exact attemptCuttingStrategies_strip sq now₁ now₂ c s testPlank polygonPoints planks
      spares₁ spares₂ gapPx hs

theorem rowIter_strip (sq : ℚ → ℚ) (now₁ now₂ : ℕ) (c s rotation : ℚ)
    (lengthPx widthPx gapPx : ℚ) (dimensions : PlankDimensions)
    (polygonPoints : List Point) (minX maxX minY maxY : ℚ) (st : RowState)
    (planks spares₁ spares₂ : List Plank) (plankId : ℕ)
    (hs : spares₁.map stripId = spares₂.map stripId) :
    (rowIter sq now₁ c s rotation lengthPx widthPx gapPx dimensions polygonPoints
        minX maxX minY maxY st planks spares₁ plankId).1 =
      (rowIter sq now₂ c s rotation lengthPx widthPx gapPx dimensions polygonPoints
        minX maxX minY maxY st planks spares₂ plankId).1 ∧
    (rowIter sq now₁ c s rotation lengthPx widthPx gapPx dimensions polygonPoints
        minX maxX minY maxY st planks spares₁ plankId).2.1 =
      (rowIter sq now₂ c s rotation lengthPx widthPx gapPx dimensions polygonPoints
        minX maxX minY maxY st planks spares₂ plankId).2.1 ∧
    (rowIter sq now₁ c s rotation lengthPx widthPx gapPx dimensions polygonPoints
        minX maxX minY maxY st planks spares₁ plankId).2.2.1.map stripId =
      (rowIter sq now₂ c s rotation lengthPx widthPx gapPx dimensions polygonPoints
        minX maxX minY maxY st planks spares₂ plankId).2.2.1.map stripId ∧
    (rowIter sq now₁ c s rotation lengthPx widthPx gapPx dimensions polygonPoints
        minX maxX minY maxY st planks spares₁ plankId).2.2.2 =
      (rowIter sq now₂ c s rotation lengthPx widthPx gapPx dimensions polygonPoints
        minX maxX minY maxY st planks spares₂ plankId).2.2.2 := by
  unfold rowIter
  dsimp only
  split
  · exact ⟨rfl, rfl, hs, rfl⟩
  · split
    · exact ⟨rfl, rfl, hs, rfl⟩
    · split
      · exact ⟨rfl, rfl, hs, rfl⟩
      · split
        · exact ⟨rfl, rfl, hs, rfl⟩
        · have hstrip := attemptPlankPlacement_strip sq now₁ now₂ c s
            (createTestPlank plankId st.nextX st.nextY rotation dimensions st.rowIndex
              st.placedPlanks.length) polygonPoints planks spares₁ spares₂ gapPx hs
          cases h₁ : attemptPlankPlacement sq now₁ c s
              (createTestPlank plankId st.nextX st.nextY rotation dimensions st.rowIndex
                st.placedPlanks.length) polygonPoints planks spares₁ gapPx with
          | mk fl₁ rest₁ =>
            cases rest₁ with
            | mk pl₁ sp₁ =>
              cases h₂ : attemptPlankPlacement sq now₂ c s
                  (createTestPlank plankId st.nextX st.nextY rotation dimensions st.rowIndex
                    st.placedPlanks.length) polygonPoints planks spares₂ gapPx with
              | mk fl₂ rest₂ =>
                cases rest₂ with
                | mk pl₂ sp₂ =>
                  rw [h₁, h₂] at hstrip
                  obtain ⟨hfl, hpl, hsp⟩ := hstrip
                  dsimp only at hfl hpl hsp
                  subst hfl
                  subst hpl
                  cases fl₁ with
                  | true => exact ⟨rfl, rfl, hsp, rfl⟩
                  | false => exact ⟨rfl, rfl, hsp, rfl⟩

theorem processRowLoop_strip (sq : ℚ → ℚ) (now₁ now₂ : ℕ) (c s rotation : ℚ)
    (lengthPx widthPx gapPx : ℚ) (dimensions : PlankDimensions)
    (polygonPoints : List Point) (minX maxX minY maxY : ℚ) (fuel : ℕ) (st : RowState)
    (planks spares₁ spares₂ : List Plank) (plankId attempts : ℕ)
    (hs : spares₁.map stripId = spares₂.map stripId) :
    (processRowLoop sq now₁ c s rotation lengthPx widthPx gapPx dimensions polygonPoints
        minX maxX minY maxY fuel st planks spares₁ plankId attempts).state =
      (processRowLoop sq now₂ c s rotation lengthPx widthPx gapPx dimensions polygonPoints
        minX maxX minY maxY fuel st planks spares₂ plankId attempts).state ∧
    (processRowLoop sq now₁ c s rotation lengthPx widthPx gapPx dimensions polygonPoints
        minX maxX minY maxY fuel st planks spares₁ plankId attempts).planks =
      (processRowLoop sq now₂ c s rotation lengthPx widthPx gapPx dimensions polygonPoints
        minX maxX minY maxY fuel st planks spares₂ plankId attempts).planks ∧
    (processRowLoop sq now₁ c s rotation lengthPx widthPx gapPx dimensions polygonPoints
        minX maxX minY maxY fuel st planks spares₁ plankId attempts).spares.map stripId =
      (processRowLoop sq now₂ c s rotation lengthPx widthPx gapPx dimensions polygonPoints
        minX maxX minY maxY fuel st planks spares₂ plankId attempts).spares.map stripId ∧
    (processRowLoop sq now₁ c s rotation lengthPx widthPx gapPx dimensions polygonPoints
        minX maxX minY maxY fuel st planks spares₁ plankId attempts).plankId =
      (processRowLoop sq now₂ c s rotation lengthPx widthPx gapPx dimensions polygonPoints
        minX maxX minY maxY fuel st planks spares₂ plankId attempts).plankId := by
  induction fuel generalizing st planks spares₁ spares₂ plankId attempts with
  | zero => exact ⟨rfl, rfl, hs, rfl⟩
  | succ fuel ih =>
    rw [processRowLoop, processRowLoop]
    split
    · exact ⟨rfl, rfl, hs, rfl⟩
    · obtain ⟨h1, h2, h3, h4⟩ := rowIter_strip sq now₁ now₂ c s rotation lengthPx widthPx
        gapPx dimensions polygonPoints minX maxX minY maxY st planks spares₁ spares₂
        plankId hs
      dsimp only
      rw [h1, h2, h4]
      exact ih _ _ _ _ _ _ h3

theorem calculateOptimalRowOffset_strip (rowIndex : ℤ) (minOffsetPx fullPlankLengthPx : ℚ)
    (spares₁ spares₂ : List Plank) (hs : spares₁.map stripId = spares₂.map stripId) :
    calculateOptimalRowOffset rowIndex minOffsetPx fullPlankLengthPx spares₁ =
      calculateOptimalRowOffset rowIndex minOffsetPx fullPlankLengthPx spares₂ := by
  have hL : spares₁.length = spares₂.length := by
    have := congrArg List.length hs
    simpa using this
  have hmaps : ∀ (l : List Plank),
      l.map (fun spare => spare.length * MM_TO_PIXELS) =
        (l.map stripId).map (fun d => d.length * MM_TO_PIXELS) := by
    intro l
    rw [List.map_map]
    rfl
  have hlen : spares₁.map (fun spare => spare.length * MM_TO_PIXELS) =
      spares₂.map (fun spare => spare.length * MM_TO_PIXELS) := by
    rw [hmaps spares₁, hmaps spares₂, hs]
  unfold calculateOptimalRowOffset
  rw [hL, hlen]

theorem processRowWithContinuousPlacement_strip (sq : ℚ → ℚ) (now₁ now₂ : ℕ)
    (c s rotation : ℚ) (lengthPx widthPx gapPx : ℚ) (dimensions : PlankDimensions)
    (polygonPoints : List Point) (minX maxX minY maxY : ℚ) (st : RowState)
    (planks spares₁ spares₂ : List Plank) (plankId : ℕ)
    (hs : spares₁.map stripId = spares₂.map stripId) :
    (processRowWithContinuousPlacement sq now₁ c s rotation lengthPx widthPx gapPx
        dimensions polygonPoints minX maxX minY maxY st planks spares₁ plankId).state =
      (processRowWithContinuousPlacement sq now₂ c s rotation lengthPx widthPx gapPx
        dimensions polygonPoints minX maxX minY maxY st planks spares₂ plankId).state ∧
    (processRowWithContinuousPlacement sq now₁ c s rotation lengthPx widthPx gapPx
        dimensions polygonPoints minX maxX minY maxY st planks spares₁ plankId).planks =
      (processRowWithContinuousPlacement sq now₂ c s rotation lengthPx widthPx gapPx
        dimensions polygonPoints minX maxX minY maxY st planks spares₂ plankId).planks ∧
    (processRowWithContinuousPlacement sq now₁ c s rotation lengthPx widthPx gapPx
        dimensions polygonPoints minX maxX minY maxY st planks spares₁
        plankId).spares.map stripId =
      (processRowWithContinuousPlacement sq now₂ c s rotation lengthPx widthPx gapPx
        dimensions polygonPoints minX maxX minY maxY st planks spares₂
        plankId).spares.map stripId ∧
    (processRowWithContinuousPlacement sq now₁ c s rotation lengthPx widthPx gapPx
        dimensions polygonPoints minX maxX minY maxY st planks spares₁ plankId).plankId =
      (processRowWithContinuousPlacement sq now₂ c s rotation lengthPx widthPx gapPx
        dimensions polygonPoints minX maxX minY maxY st planks spares₂ plankId).plankId := by
  unfold processRowWithContinuousPlacement
  exact processRowLoop_strip sq now₁ now₂ c s rotation lengthPx widthPx gapPx dimensions
    polygonPoints minX maxX minY maxY 20 st planks spares₁ spares₂ plankId 0 hs

theorem processRowsFold_strip (sq : ℚ → ℚ) (now₁ now₂ : ℕ) (c s rotation : ℚ)
    (startX startY minRowOffsetPx lengthPx widthPx gapPx rowSpacingX rowSpacingY : ℚ)
    (dimensions : PlankDimensions) (polygonPoints : List Point)
    (minX maxX minY maxY : ℚ) :
    ∀ (l : List ℤ) (acc₁ acc₂ : List Plank × List Plank × ℕ),
      acc₁.1 = acc₂.1 → acc₁.2.1.map stripId = acc₂.2.1.map stripId →
      acc₁.2.2 = acc₂.2.2 →
      (l.foldl (fun (acc : List Plank × List Plank × ℕ) rowIndex =>
        let offsetForThisRow :=
          calculateOptimalRowOffset rowIndex minRowOffsetPx (lengthPx + gapPx) acc.2.1
        let rs := calculateRowStart c s startX startY rowIndex rowSpacingX rowSpacingY
          offsetForThisRow
        let out := processRowWithContinuousPlacement sq now₁ c s rotation lengthPx widthPx
          gapPx dimensions polygonPoints minX maxX minY maxY
          ⟨rowIndex, rs.1, rs.2, [], false⟩ acc.1 acc.2.1 acc.2.2
        (out.planks, out.spares, out.plankId)) acc₁).1 =
      (l.foldl (fun (acc : List Plank × List Plank × ℕ) rowIndex =>
        let offsetForThisRow :=
          calculateOptimalRowOffset rowIndex minRowOffsetPx (lengthPx + gapPx) acc.2.1
        let rs := calculateRowStart c s startX startY rowIndex rowSpacingX rowSpacingY
          offsetForThisRow
        let out := processRowWithContinuousPlacement sq now₂ c s rotation lengthPx widthPx
          gapPx dimensions polygonPoints minX maxX minY maxY
          ⟨rowIndex, rs.1, rs.2, [], false⟩ acc.1 acc.2.1 acc.2.2
        (out.planks, out.spares, out.plankId)) acc₂).1 ∧
      (l.foldl (fun (acc : List Plank × List Plank × ℕ) rowIndex =>
        let offsetForThisRow :=
          calculateOptimalRowOffset rowIndex minRowOffsetPx (lengthPx + gapPx) acc.2.1
        let rs := calculateRowStart c s startX startY rowIndex rowSpacingX rowSpacingY
          offsetForThisRow
        let out := processRowWithContinuousPlacement sq now₁ c s rotation lengthPx widthPx
          gapPx dimensions polygonPoints minX maxX minY maxY
          ⟨rowIndex, rs.1, rs.2, [], false⟩ acc.1 acc.2.1 acc.2.2
        (out.planks, out.spares, out.plankId)) acc₁).2.1.map stripId =
      (l.foldl (fun (acc : List Plank × List Plank × ℕ) rowIndex =>
        let offsetForThisRow :=
          calculateOptimalRowOffset rowIndex minRowOffsetPx (lengthPx + gapPx) acc.2.1
        let rs := calculateRowStart c s startX startY rowIndex rowSpacingX rowSpacingY
          offsetForThisRow
        let out := processRowWithContinuousPlacement sq now₂ c s rotation lengthPx widthPx
          gapPx dimensions polygonPoints minX maxX minY maxY
          ⟨rowIndex, rs.1, rs.2, [], false⟩ acc.1 acc.2.1 acc.2.2
        (out.planks, out.spares, out.plankId)) acc₂).2.1.map stripId ∧
      (l.foldl (fun (acc : List Plank × List Plank × ℕ) rowIndex =>
        let offsetForThisRow :=
          calculateOptimalRowOffset rowIndex minRowOffsetPx (lengthPx + gapPx) acc.2.1
        let rs := calculateRowStart c s startX startY rowIndex rowSpacingX rowSpacingY
          offsetForThisRow
        let out := processRowWithContinuousPlacement sq now₁ c s rotation lengthPx widthPx
          gapPx dimensions polygonPoints minX maxX minY maxY
          ⟨rowIndex, rs.1, rs.2, [], false⟩ acc.1 acc.2.1 acc.2.2
        (out.planks, out.spares, out.plankId)) acc₁).2.2 =
      (l.foldl (fun (acc : List Plank × List Plank × ℕ) rowIndex =>
        let offsetForThisRow :=
          calculateOptimalRowOffset rowIndex minRowOffsetPx (lengthPx + gapPx) acc.2.1
        let rs := calculateRowStart c s startX startY rowIndex rowSpacingX rowSpacingY
          offsetForThisRow
        let out := processRowWithContinuousPlacement sq now₂ c s rotation lengthPx widthPx
          gapPx dimensions polygonPoints minX maxX minY maxY
          ⟨rowIndex, rs.1, rs.2, [], false⟩ acc.1 acc.2.1 acc.2.2
        (out.planks, out.spares, out.plankId)) acc₂).2.2 := by
  intro l
  induction l with
  | nil => intro acc₁ acc₂ h1 h2 h3; exact ⟨h1, h2, h3⟩
  | cons head tail ih =>
    intro acc₁ acc₂ h1 h2 h3
    rw [List.foldl_cons, List.foldl_cons]
    have hoff := calculateOptimalRowOffset_strip head minRowOffsetPx (lengthPx + gapPx)
      acc₁.2.1 acc₂.2.1 h2
    have hrow := processRowWithContinuousPlacement_strip sq now₁ now₂ c s rotation lengthPx
      widthPx gapPx dimensions polygonPoints minX maxX minY maxY
      ⟨head,
        (calculateRowStart c s startX startY head rowSpacingX rowSpacingY
          (calculateOptimalRowOffset head minRowOffsetPx (lengthPx + gapPx) acc₂.2.1)).1,
        (calculateRowStart c s startX startY head rowSpacingX rowSpacingY
          (calculateOptimalRowOffset head minRowOffsetPx (lengthPx + gapPx) acc₂.2.1)).2,
        [], false⟩ acc₂.1 acc₁.2.1 acc₂.2.1 acc₂.2.2 h2
    refine ih _ _ ?_ ?_ ?_
    · dsimp only
      rw [h1, h3, hoff]
      exact hrow.2.1
    · dsimp only
      rw [h1, h3, hoff]
      exact hrow.2.2.1
    · dsimp only
      rw [h1, h3, hoff]
      exact hrow.2.2.2

theorem processRowsWithAwarePlacement_strip (sq : ℚ → ℚ) (now₁ now₂ : ℕ)
    (c s rotation : ℚ) (maxRowsNeeded : ℤ)
    (startX startY minRowOffsetPx lengthPx widthPx gapPx rowSpacingX rowSpacingY : ℚ)
    (dimensions : PlankDimensions) (polygonPoints : List Point)
    (newPlanks spares₁ spares₂ : List Plank) (plankId : ℕ) (minX maxX minY maxY : ℚ)
    (hs : spares₁.map stripId = spares₂.map stripId) :
    (processRowsWithAwarePlacement sq now₁ c s rotation maxRowsNeeded startX startY
        minRowOffsetPx lengthPx widthPx gapPx rowSpacingX rowSpacingY dimensions
        polygonPoints newPlanks spares₁ plankId minX maxX minY maxY).1 =
      (processRowsWithAwarePlacement sq now₂ c s rotation maxRowsNeeded startX startY
        minRowOffsetPx lengthPx widthPx gapPx rowSpacingX rowSpacingY dimensions
        polygonPoints newPlanks spares₂ plankId minX maxX minY maxY).1 ∧
    (processRowsWithAwarePlacement sq now₁ c s rotation maxRowsNeeded startX startY
        minRowOffsetPx lengthPx widthPx gapPx rowSpacingX rowSpacingY dimensions
        polygonPoints newPlanks spares₁ plankId minX maxX minY maxY).2.1.map stripId =
      (processRowsWithAwarePlacement sq now₂ c s rotation maxRowsNeeded startX startY
        minRowOffsetPx lengthPx widthPx gapPx rowSpacingX rowSpacingY dimensions
        polygonPoints newPlanks spares₂ plankId minX maxX minY maxY).2.1.map stripId ∧
    (processRowsWithAwarePlacement sq now₁ c s rotation maxRowsNeeded startX startY
        minRowOffsetPx lengthPx widthPx gapPx rowSpacingX rowSpacingY dimensions
        polygonPoints newPlanks spares₁ plankId minX maxX minY maxY).2.2 =
      (processRowsWithAwarePlacement sq now₂ c s rotation maxRowsNeeded startX startY
        minRowOffsetPx lengthPx widthPx gapPx rowSpacingX rowSpacingY dimensions
        polygonPoints newPlanks spares₂ plankId minX maxX minY maxY).2.2 := by
  unfold processRowsWithAwarePlacement
  exact processRowsFold_strip sq now₁ now₂ c s rotation startX startY minRowOffsetPx
    lengthPx widthPx gapPx rowSpacingX rowSpacingY dimensions polygonPoints minX maxX
    minY maxY (intRangeIncl (-maxRowsNeeded) maxRowsNeeded)
    (newPlanks, spares₁, plankId) (newPlanks, spares₂, plankId) rfl hs rfl

/-- C7 (amended): the engine is deterministic up to spare identifiers.  For
any two runs of `generateTessellation` on the same square-root oracle,
rotation, seed plank, polygon, and dimensions — differing only in the
`Date.now()` clock reading — the accepted-plank lists are identical
(every field of every record), and the spare lists agree on every field
except `id`, which embeds the clock reading. -/
theorem claim_C7_amended_deterministic_up_to_spare_ids (sq : ℚ → ℚ) (now₁ now₂ : ℕ)
    (c s : ℚ) (firstPlank : Plank) (polygonPoints : List Point)
    (dimensions : PlankDimensions) :
    (generateTessellation sq now₁ c s firstPlank polygonPoints dimensions).planks =
      (generateTessellation sq now₂ c s firstPlank polygonPoints dimensions).planks ∧
    (generateTessellation sq now₁ c s firstPlank polygonPoints
        dimensions).spares.map stripId =
      (generateTessellation sq now₂ c s firstPlank polygonPoints
        dimensions).spares.map stripId := by
  unfold generateTessellation
  split
  · exact ⟨rfl, rfl⟩
  · dsimp only
    have h := processRowsWithAwarePlacement_strip sq now₁ now₂ c s firstPlank.rotation
      (⌈(listMax (polygonPoints.map fun p => p.y) -
          listMin (polygonPoints.map fun p => p.y)) /
          (dimensions.width * MM_TO_PIXELS)⌉ + 2)
      firstPlank.x firstPlank.y (dimensions.minRowOffset * MM_TO_PIXELS)
      (dimensions.length * MM_TO_PIXELS) (dimensions.width * MM_TO_PIXELS)
      (dimensions.gap * MM_TO_PIXELS)
      (-(dimensions.width * MM_TO_PIXELS + dimensions.gap * MM_TO_PIXELS) * s)
      ((dimensions.width * MM_TO_PIXELS + dimensions.gap * MM_TO_PIXELS) * c)
      dimensions polygonPoints [firstPlank] [] [] 1
      (listMin (polygonPoints.map fun p => p.x))
      (listMax (polygonPoints.map fun p => p.x))
      (listMin (polygonPoints.map fun p => p.y))
      (listMax (polygonPoints.map fun p => p.y)) rfl
    exact ⟨h.1, h.2.1⟩

/-- Seed plank for the clock-sensitivity run: nominally sized 1200x960 so a
single row is cut, producing a spare whose id embeds the clock. -/
def c7Seed : Plank :=
  { id := "seed", x := 160, y := 150, rotation := 0, length := 1200, width := 960 }

/-- Dimensions config for the clock-sensitivity run. -/
def c7Dims : PlankDimensions :=
  { length := 1200, width := 960, gap := 0, minRowOffset := 300 }

/-- The degenerate square-root oracle `fun a => 0` (any oracle works; the
run below only compares two clock readings under the same oracle). -/
def sq0 : ℚ → ℚ := fun _ => 0

/-- C7, counterexample: `generateTessellation` reads `Date.now()` while
building spare ids, so two runs on the very same seed plank, polygon, and
dimensions — at clock readings `0` and `1` — return records that are not
identical (the produced spare's id differs).  The spec's claim that two
runs on the same input produce identical outputs, including all fields of
every plank record, is therefore false as stated. -/
theorem claim_C7_counterexample :
    generateTessellation sq0 0 1 0 c7Seed c4Poly c7Dims ≠
      generateTessellation sq0 1 1 0 c7Seed c4Poly c7Dims := by
  with_unfolding_all decide

theorem cutPlank_length_conservation (now : ℕ) (plank : Plank) (cutLengthMm : ℚ) :
    (cutPlank now plank cutLengthMm).1.length + (cutPlank now plank cutLengthMm).2.length =
      plank.length := by
  unfold cutPlank
  dsimp only
  ring

theorem tryLinearCut_length_sum (now : ℕ) (c s : ℚ) (plank : Plank)
    (polygonPoints : List Point) (r : Plank × Plank)
    (h : tryLinearCut now c s plank polygonPoints = some r) :
    r.1.length + r.2.length = plank.length := by
  unfold tryLinearCut at h
  dsimp only at h
  split at h
  · exact absurd h (by simp)
  split at h
  · exact absurd h (by simp)
  split at h
  · exact absurd h (by simp)
  split at h
  · exact absurd h (by simp)
  split at h
  · obtain rfl := Option.some.inj h
    dsimp only
    ring
  · split at h
    · obtain rfl := Option.some.inj h
      dsimp only
      ring
    · exact absurd h (by simp)

theorem createSpareFromRemainingArea_area_le (sq : ℚ → ℚ) (now : ℕ)
    (originalPlank : Plank) (spareAreaPx : ℚ) (sp : Plank)
    (h : createSpareFromRemainingArea sq now originalPlank spareAreaPx = some sp) :
    sp.length * MM_TO_PIXELS * (sp.width * MM_TO_PIXELS) ≤ spareAreaPx := by
  unfold createSpareFromRemainingArea at h
  dsimp only at h
  split at h
  · exact absurd h (by simp)
  split at h
  · exact absurd h (by simp)
  rename_i hguard
  obtain rfl := Option.some.inj h
  dsimp only
  push_neg at hguard
  obtain ⟨hsl, hsw⟩ := hguard
  have hsl0 : (0 : ℚ) < min (sq spareAreaPx) originalPlank.length := lt_of_lt_of_le
    (by norm_num) hsl
  have hwle : min (spareAreaPx / min (sq spareAreaPx) originalPlank.length)
      originalPlank.width ≤ spareAreaPx / min (sq spareAreaPx) originalPlank.length :=
    min_le_left _ _
  have hstep : min (sq spareAreaPx) originalPlank.length *
      min (spareAreaPx / min (sq spareAreaPx) originalPlank.length) originalPlank.width ≤
      min (sq spareAreaPx) originalPlank.length *
        (spareAreaPx / min (sq spareAreaPx) originalPlank.length) :=
    mul_le_mul_of_nonneg_left hwle hsl0.le
  have hcancel : min (sq spareAreaPx) originalPlank.length *
      (spareAreaPx / min (sq spareAreaPx) originalPlank.length) = spareAreaPx := by
    rw [mul_comm]
    exact div_mul_cancel₀ spareAreaPx hsl0.ne'
  calc pixelsToMm (min (sq spareAreaPx) originalPlank.length) * MM_TO_PIXELS *
        (pixelsToMm (min (spareAreaPx / min (sq spareAreaPx) originalPlank.length)
          originalPlank.width) * MM_TO_PIXELS)
      = min (sq spareAreaPx) originalPlank.length *
          min (spareAreaPx / min (sq spareAreaPx) originalPlank.length)
            originalPlank.width := by
        unfold pixelsToMm MM_TO_PIXELS
        ring
    _ ≤ spareAreaPx := hstep.trans_eq hcancel

theorem createSpareFromCut_area_le (sq : ℚ → ℚ) (now : ℕ)
    (originalPlank fittedPlank : Plank) (sp : Plank)
    (hsq : ∀ a : ℚ, 0 ≤ a → 0 ≤ sq a ∧ sq a * sq a ≤ a)
    (h : createSpareFromCut sq now originalPlank fittedPlank = some sp) :
    ∃ shape, fittedPlank.shape = some shape ∧
      sp.length * sp.width ≤
        originalPlank.length * originalPlank.width -
          calculatePolygonArea shape * pixelsToMm 1 ^ 2 := by
  unfold createSpareFromCut at h
  split at h
  · exact absurd h (by simp)
  split at h
  · exact absurd h (by simp)
  rename_i shape hshape
  dsimp only at h
  split at h
  · exact absurd h (by simp)
  rename_i hguard
  obtain rfl := Option.some.inj h
  refine ⟨shape, hshape, ?_⟩
  dsimp only
  push_neg at hguard
  have hA : (0 : ℚ) ≤ originalPlank.length * originalPlank.width -
      calculatePolygonArea shape * pixelsToMm 1 ^ 2 := le_trans (by norm_num) hguard
  obtain ⟨hs0, hs2⟩ := hsq _ hA
  calc sq (originalPlank.length * originalPlank.width -
        calculatePolygonArea shape * pixelsToMm 1 ^ 2) *
        min originalPlank.width (sq (originalPlank.length * originalPlank.width -
          calculatePolygonArea shape * pixelsToMm 1 ^ 2))
      ≤ sq (originalPlank.length * originalPlank.width -
          calculatePolygonArea shape * pixelsToMm 1 ^ 2) *
          sq (originalPlank.length * originalPlank.width -
            calculatePolygonArea shape * pixelsToMm 1 ^ 2) :=
        mul_le_mul_of_nonneg_left (min_le_right _ _) hs0
    _ ≤ _ := hs2

/-- The 1200mm x 240mm plank centered at the origin with rotation 0, used
by both C3 counterexample rooms. -/
def c3Plank : Plank :=
  { id := "c3", x := 0, y := 0, rotation := 0, length := 1200, width := 240 }

/-- A narrow room covering only the plank's leftmost 5px: the linear cut
leaves a 45mm fitted piece, below 5% of the 1200mm length. -/
def c3PolySmall : List Point := [⟨-70, -20⟩, ⟨-55, -20⟩, ⟨-55, 20⟩, ⟨-70, 20⟩]

/-- A room cutting only the plank's leftmost 5px away: the positive-offset
branch fits a 1145mm piece, above 95% of the 1200mm length. -/
def c3PolyLarge : List Point := [⟨-55, -20⟩, ⟨70, -20⟩, ⟨70, 20⟩, ⟨-55, 20⟩]

/-- C3, counterexample: `tryLinearCut` returns fitted lengths outside the
5-95% window of the original length.  On `c3PolySmall` it returns a fitted
piece of `45`mm, below 5% of `1200`mm; on `c3PolyLarge` it returns `1145`mm,
above 95% of `1200`mm.  The spec's claim that every returned cut leaves
between 5% and 95% of the original length is therefore false. -/
theorem claim_C3_counterexample :
    ((tryLinearCut 0 1 0 c3Plank c3PolySmall).map fun r => r.1.length) = some 45 ∧
      (45 : ℚ) < c3Plank.length * (5 / 100) ∧
    ((tryLinearCut 0 1 0 c3Plank c3PolyLarge).map fun r => r.1.length) = some 1145 ∧
      c3Plank.length * (95 / 100) < (1145 : ℚ) := by
  refine ⟨?_, ?_, ?_, ?_⟩
  · with_unfolding_all decide
  · with_unfolding_all decide
  · with_unfolding_all decide
  · with_unfolding_all decide
